import Mathlib

/-!
Shallow embedding of the Wecraft scoring engine (trust, impact, compatibility
and recruiter-match calculators, plus the explanation generator), translated
from the TypeScript sources.

Modelling conventions:
* JS `number` values are modelled as exact rationals `ℚ`; list lengths are `ℕ`
  and are coerced where the source divides or compares them.
* The current wall-clock time (`new Date()`) is passed in explicitly as a
  millisecond timestamp `now : ℚ`; `Math.log10` and `Math.pow` are passed in
  as function parameters, since no verified property depends on their values.
* At the few division sites where the source's own guards do not rule out a
  zero denominator, the JS float outcome (`NaN` / `Infinity`) is modelled
  explicitly: a value that can be `NaN` is an `Option ℚ` with `none` for
  `NaN`, and comparisons against `NaN` evaluate to `false` as in JS.
  Everywhere else the source guards the denominator and rational division
  agrees with JS semantics.
* A JS `Date` object is modelled by the observations the engine takes of it
  (`getTime()`, `getFullYear()`, `getMonth()`).
-/

namespace Wecraft

/-- Models JS `Math.min` on two finite numbers (kernel-reducible). -/
def qmin (a b : ℚ) : ℚ := if a ≤ b then a else b

/-- Models JS `Math.max` on two finite numbers (kernel-reducible). -/
def qmax (a b : ℚ) : ℚ := if a ≤ b then b else a

/-- Clamps a score to [0, 100]; models `Math.min(Math.max(x, 0), 100)` and the
equivalent `Math.max(0, Math.min(100, x))` used across the calculators. -/
def clamp100 (x : ℚ) : ℚ := qmin (qmax x 0) 100

/-- Models JS `Math.round` (round half toward positive infinity). -/
def jsRound (x : ℚ) : ℤ := Rat.floor (x + 1/2)

/-- Models the JS comparison `a / b > c`: when `b = 0` the quotient is
`Infinity` (for `a > 0`), `-Infinity` (for `a < 0`) or `NaN` (for `a = 0`),
and only `Infinity` compares greater than a finite `c`. -/
def jsDivGt (a b c : ℚ) : Bool := if b = 0 then decide (0 < a) else decide (c < a / b)

/-- Models `Math.min(a / b * 100, cap)` under a guard that ensured `0 < a`:
when `b = 0` the quotient is `Infinity` and the `Math.min` returns `cap`. -/
def jsDivRateCapped (a b cap : ℚ) : ℚ := if b = 0 then cap else qmin (a / b * 100) cap

/-- Models `x < c` where `x` may be `NaN` (`none`): any comparison with `NaN`
is false in JS. -/
def oLt (x : Option ℚ) (c : ℚ) : Bool := match x with | none => false | some q => decide (q < c)

/-- Models `x > c` where `x` may be `NaN` (`none`). -/
def oGt (x : Option ℚ) (c : ℚ) : Bool := match x with | none => false | some q => decide (c < q)

/-- Models `x >= c` where `x` may be `NaN` (`none`). -/
def oGe (x : Option ℚ) (c : ℚ) : Bool := match x with | none => false | some q => decide (c ≤ q)

/-- Multiplication by a finite constant, propagating `NaN`. -/
def oMul (x : Option ℚ) (c : ℚ) : Option ℚ := x.map (· * c)

/-- Addition of possibly-`NaN` values (`NaN` propagates; no infinities arise
at the sites where this is used). -/
def oAdd (x y : Option ℚ) : Option ℚ :=
  match x, y with
  | some a, some b => some (a + b)
  | _, _ => none

/-- Subtraction with possibly-`NaN` operands. -/
def oSub (x y : Option ℚ) : Option ℚ :=
  match x, y with
  | some a, some b => some (a - b)
  | _, _ => none

/-- Clamp to [0,100] propagating `NaN` (`Math.max(0, Math.min(100, NaN))` is
`NaN`). -/
def oClamp100 (x : Option ℚ) : Option ℚ := x.map clamp100

/-- Renders a possibly-`NaN` rounded value inside a template string. -/
def oRoundStr (x : Option ℚ) : String :=
  match x with
  | none => "NaN"
  | some q => toString (jsRound q)

/-- Substring test, modelling JS `String.prototype.includes`. -/
def strContains (hay needle : String) : Bool :=
  let h := hay.toList
  let n := needle.toList
  (List.range (h.length + 1)).any fun i => n.isPrefixOf (h.drop i)

/-- Models `s || ''` for a `string | null` value. -/
def optStr (s : Option String) : String := s.getD ""

/-- Models JS truthiness of a `string | null` value (`null` and `''` are
falsy). -/
def strTruthy (s : Option String) : Bool := match s with | none => false | some t => !(t == "")

/-- Renders a JS number in a template string. Integral values print as in JS;
the decimal rendering of non-integral floats is not modelled exactly (no
verified property depends on it). -/
def jsNumToString (q : ℚ) : String := if q.den = 1 then toString q.num else toString q

/-- A JS `Date`, modelled by the observations the engine takes of it: `ms`
models `getTime()`, `year` models `getFullYear()`, `month` models
`getMonth()`. -/
structure JSDate where
  ms : ℚ
  year : ℤ
  month : ℕ
deriving DecidableEq, Repr

/-- Day bucket used by `mergedAt.toISOString().split('T')[0]` when grouping
PRs by day: two timestamps share the ISO day string exactly when they share
this floor. -/
def dayKey (d : JSDate) : ℤ := Rat.floor (d.ms / 86400000)

/-! ## GitHub data model (`types/github.ts`) -/

structure MergedPR where
  id : String
  repository : String
  mergedAt : JSDate
  mergedBy : String
  author : String
  reviewCommentsReceived : ℚ
  reviewRounds : ℚ
  filesChanged : ℚ
  directoriesTouched : ℚ
  isMaintainerMerge : Bool
  isFork : Bool
  timeToMerge : ℚ
deriving DecidableEq, Repr

structure CodeReview where
  id : String
  repository : String
  prId : String
  reviewedAt : JSDate
  reviewer : String
  reviewee : String
  commentCount : ℚ
deriving DecidableEq, Repr

structure Issue where
  id : String
  repository : String
  openedAt : JSDate
  author : String
  ledToMergedPR : Bool
  commentCount : ℚ
deriving DecidableEq, Repr

structure RepositoryContribution where
  repository : String
  mergedPRCount : ℚ
  isFork : Bool
  contributorCount : ℚ
  maintainerCount : ℚ
deriving DecidableEq, Repr

structure ActivitySpan where
  firstPRDate : JSDate
  lastPRDate : JSDate
deriving DecidableEq, Repr

structure GitHubActivity where
  mergedPRs : List MergedPR
  reviewsGiven : List CodeReview
  reviewsReceived : List CodeReview
  issues : List Issue
  repositories : List RepositoryContribution
  activitySpan : ActivitySpan
deriving DecidableEq, Repr

structure GitHubAccount where
  username : String
  createdAt : JSDate
  publicRepos : ℚ
  followers : ℚ
  following : ℚ
  bio : Option String
  location : Option String
  company : Option String
  website : Option String
  email : Option String
  isVerified : Bool
deriving DecidableEq, Repr

structure ContributionPattern where
  totalPRs : ℚ
  mergedPRs : ℚ
  openPRs : ℚ
  closedPRs : ℚ
  selfMergedPRs : ℚ
  forkPRs : ℚ
  originalRepoPRs : ℚ
  forkOnlyRepos : List String
  originalRepoContributions : ℚ
  firstContributionDate : Option JSDate
  lastContributionDate : Option JSDate
  contributionDays : ℚ
  contributionMonths : ℚ
  averagePRsPerDay : ℚ
  maxPRsInSingleDay : ℚ
  uniqueRepositories : ℚ
  repositoriesWithMultiplePRs : ℚ
  repositoriesWithMaintainerInteraction : ℚ
  reviewsGiven : ℚ
  reviewsReceived : ℚ
  maintainerReviews : ℚ
  issuesOpened : ℚ
  issuesClosed : ℚ
  issuesWithPRs : ℚ
  commitMessagePatterns : List (String × ℚ)
  commitTimePatterns : List ℚ
  identicalCommitMessages : ℚ
  uniqueCollaborators : ℚ
  maintainerInteractions : ℚ
  crossRepositoryCollaborations : ℚ
deriving DecidableEq

/-! ## Trust score types and configuration (`types/scores.ts`, `scores/trust.ts`) -/

structure SpamDetection where
  excessiveDailyPRs : Bool
  excessiveHourlyActivity : Bool
  identicalCommitMessages : Bool
  automatedPatterns : Bool
  suspiciousTimePatterns : Bool
  trivialPRs : ℚ
  whitespaceOnlyPRs : ℚ
  singleCharacterPRs : ℚ
  forkFarming : Bool
  selfMergeFarming : Bool
  repositoryFarming : Bool
deriving DecidableEq, Repr

structure TrustWeights where
  accountAuthenticity : ℚ
  contributionAuthenticity : ℚ
  collaborationSignals : ℚ
  antiGamingScore : ℚ
deriving DecidableEq, Repr

/-- Partial trust weights override (every field optional, as in the TS
`TrustScoreConfig['weights']`). -/
structure TrustWeightsPartial where
  accountAuthenticity : Option ℚ := none
  contributionAuthenticity : Option ℚ := none
  collaborationSignals : Option ℚ := none
  antiGamingScore : Option ℚ := none
deriving DecidableEq, Repr

/-- Partial trust configuration (the TS `TrustScoreConfig`). -/
structure TrustScoreConfig where
  maxPRsPerDay : Option ℚ := none
  maxPRsPerHour : Option ℚ := none
  minAccountAgeDays : Option ℚ := none
  minUniqueRepos : Option ℚ := none
  forkOnlyPenalty : Option ℚ := none
  identicalMessageThreshold : Option ℚ := none
  weights : Option TrustWeightsPartial := none
deriving DecidableEq, Repr

/-- Fully resolved trust configuration (the TS `Required<TrustScoreConfig>`). -/
structure TrustScoreConfigFull where
  maxPRsPerDay : ℚ
  maxPRsPerHour : ℚ
  minAccountAgeDays : ℚ
  minUniqueRepos : ℚ
  forkOnlyPenalty : ℚ
  identicalMessageThreshold : ℚ
  weights : TrustWeights
deriving DecidableEq, Repr

/-- The trust calculator's `DEFAULT_CONFIG`. -/
def trustDefaultConfig : TrustScoreConfigFull :=
  { maxPRsPerDay := 20
    maxPRsPerHour := 5
    minAccountAgeDays := 30
    minUniqueRepos := 2
    forkOnlyPenalty := 0.5
    identicalMessageThreshold := 5
    weights :=
      { accountAuthenticity := 0.25
        contributionAuthenticity := 0.35
        collaborationSignals := 0.25
        antiGamingScore := 0.15 } }

/-- The config merge `{...DEFAULT_CONFIG, ...config, weights: {...}}` at the
top of `calculateTrustScore`. -/
def resolveTrustConfig (config : Option TrustScoreConfig) : TrustScoreConfigFull :=
  match config with
  | none => trustDefaultConfig
  | some c =>
    { maxPRsPerDay := c.maxPRsPerDay.getD trustDefaultConfig.maxPRsPerDay
      maxPRsPerHour := c.maxPRsPerHour.getD trustDefaultConfig.maxPRsPerHour
      minAccountAgeDays := c.minAccountAgeDays.getD trustDefaultConfig.minAccountAgeDays
      minUniqueRepos := c.minUniqueRepos.getD trustDefaultConfig.minUniqueRepos
      forkOnlyPenalty := c.forkOnlyPenalty.getD trustDefaultConfig.forkOnlyPenalty
      identicalMessageThreshold :=
        c.identicalMessageThreshold.getD trustDefaultConfig.identicalMessageThreshold
      weights :=
        match c.weights with
        | none => trustDefaultConfig.weights
        | some w =>
          { accountAuthenticity :=
              w.accountAuthenticity.getD trustDefaultConfig.weights.accountAuthenticity
            contributionAuthenticity :=
              w.contributionAuthenticity.getD trustDefaultConfig.weights.contributionAuthenticity
            collaborationSignals :=
              w.collaborationSignals.getD trustDefaultConfig.weights.collaborationSignals
            antiGamingScore :=
              w.antiGamingScore.getD trustDefaultConfig.weights.antiGamingScore } }

/-- Translation of `detectSpamPatterns` (scores/trust.ts). The
`selfMergedPRs / totalPRs > 0.5` comparison is unguarded in the source, so
the `totalPRs = 0` case follows JS float semantics via `jsDivGt`. -/
def detectSpamPatterns (pattern : ContributionPattern) (config : TrustScoreConfigFull) :
    SpamDetection :=
  { excessiveDailyPRs := decide (config.maxPRsPerDay < pattern.maxPRsInSingleDay)
    excessiveHourlyActivity := false
    identicalCommitMessages :=
      decide (config.identicalMessageThreshold ≤ pattern.identicalCommitMessages)
    automatedPatterns := false
    suspiciousTimePatterns := false
    trivialPRs := 0
    whitespaceOnlyPRs := 0
    singleCharacterPRs := 0
    forkFarming :=
      decide (0 < pattern.forkOnlyRepos.length) && decide (pattern.originalRepoContributions = 0)
    selfMergeFarming := jsDivGt pattern.selfMergedPRs pattern.totalPRs 0.5
    repositoryFarming :=
      decide (50 < pattern.uniqueRepositories) && decide (pattern.repositoriesWithMultiplePRs < 5) }

structure AccountAuthBreakdown where
  accountAge : ℚ
  accountMaturity : ℚ
  profileCompleteness : ℚ
deriving DecidableEq, Repr

structure Scored (β : Type) where
  score : ℚ
  breakdown : β
deriving DecidableEq, Repr

/-- Contribution-span in days used by several trust components:
`first && last ? (last - first) / dayMs : 0`. -/
def contributionSpanDays (pattern : ContributionPattern) : ℚ :=
  match pattern.firstContributionDate, pattern.lastContributionDate with
  | some f, some l => (l.ms - f.ms) / 86400000
  | _, _ => 0

/-- Translation of `calculateAccountAuthenticity` (scores/trust.ts); `now` is
the millisecond timestamp of the `new Date()` taken there. -/
def calculateAccountAuthenticity (now : ℚ) (account : GitHubAccount)
    (pattern : ContributionPattern) (config : TrustScoreConfigFull) :
    Scored AccountAuthBreakdown :=
  let accountAgeDays : ℚ := (now - account.createdAt.ms) / 86400000
  let accountAgeScoreBase : ℚ := qmin (accountAgeDays / 365) 1 * 100
  let contributionSpan : ℚ := contributionSpanDays pattern
  let accountMaturity : ℚ := qmin (contributionSpan / 180) 1 * 100
  let profileCompleteness : ℚ :=
    (if strTruthy account.bio then 20 else 0) +
    (if strTruthy account.location then 20 else 0) +
    (if strTruthy account.company then 20 else 0) +
    (if strTruthy account.website then 20 else 0) +
    (if strTruthy account.email then 20 else 0)
  let accountAgeScore : ℚ :=
    if accountAgeDays < config.minAccountAgeDays then accountAgeScoreBase * 0.3
    else accountAgeScoreBase
  let score : ℚ := accountAgeScore * 0.4 + accountMaturity * 0.4 + profileCompleteness * 0.2
  { score := clamp100 score
    breakdown :=
      { accountAge := accountAgeDays
        accountMaturity := accountMaturity
        profileCompleteness := profileCompleteness } }

structure ContributionAuthBreakdown where
  contributionSpan : ℚ
  repositoryDiversity : ℚ
  maintainerTrust : ℚ
  temporalConsistency : ℚ
deriving DecidableEq, Repr

/-- Translation of `calculateContributionAuthenticity` (scores/trust.ts);
`log10` models `Math.log10`. -/
def calculateContributionAuthenticity (log10 : ℚ → ℚ) (pattern : ContributionPattern)
    (config : TrustScoreConfigFull) : Scored ContributionAuthBreakdown :=
  if pattern.totalPRs = 0 then
    { score := 0
      breakdown :=
        { contributionSpan := 0, repositoryDiversity := 0
          maintainerTrust := 0, temporalConsistency := 0 } }
  else
    let contributionSpan : ℚ := contributionSpanDays pattern
    let spanScore : ℚ := qmin (contributionSpan / 365) 1 * 100
    let repoDiversity : ℚ :=
      qmin (log10 (pattern.uniqueRepositories + 1) / log10 20) 1 * 100
    let maintainerMerges : ℚ := pattern.mergedPRs - pattern.selfMergedPRs
    let maintainerTrust : ℚ :=
      if 0 < pattern.mergedPRs then maintainerMerges / pattern.mergedPRs * 100 else 0
    let consistency : ℚ :=
      if 0 < pattern.contributionMonths ∧ 0 < contributionSpan then
        qmin (pattern.contributionMonths / (contributionSpan / 30) * 100) 100
      else 0
    let diversityPenalty : ℚ :=
      if pattern.uniqueRepositories < config.minUniqueRepos then 0.5 else 1
    let score : ℚ :=
      spanScore * 0.3 + repoDiversity * 0.3 * diversityPenalty +
      maintainerTrust * 0.25 + consistency * 0.15
    { score := clamp100 score
      breakdown :=
        { contributionSpan := contributionSpan
          repositoryDiversity := repoDiversity
          maintainerTrust := maintainerTrust
          temporalConsistency := consistency } }

structure CollaborationSignalsBreakdown where
  uniqueCollaborators : ℚ
  maintainerInteractions : ℚ
  crossRepoCollaborations : ℚ
  reviewReciprocity : ℚ
deriving DecidableEq, Repr

/-- Translation of `calculateCollaborationSignals` (scores/trust.ts). The
guards on the two rate computations check the numerator, not the
denominator, so the zero-denominator case follows JS semantics
(`Infinity` capped by `Math.min`) via `jsDivRateCapped`. -/
def calculateCollaborationSignals (log10 : ℚ → ℚ) (pattern : ContributionPattern) :
    Scored CollaborationSignalsBreakdown :=
  if pattern.totalPRs = 0 then
    { score := 0
      breakdown :=
        { uniqueCollaborators := 0, maintainerInteractions := 0
          crossRepoCollaborations := 0, reviewReciprocity := 0 } }
  else
    let collaboratorScore : ℚ :=
      qmin (log10 (pattern.uniqueCollaborators + 1) / log10 50) 1 * 100
    let maintainerInteractionRate : ℚ :=
      if 0 < pattern.maintainerInteractions then
        jsDivRateCapped pattern.maintainerInteractions pattern.mergedPRs 100
      else 0
    let crossRepoScore : ℚ :=
      if 0 < pattern.crossRepositoryCollaborations then
        jsDivRateCapped pattern.crossRepositoryCollaborations pattern.uniqueRepositories 100
      else 0
    let totalReviews : ℚ := pattern.reviewsGiven + pattern.reviewsReceived
    let reciprocity : ℚ :=
      if 0 < totalReviews then
        qmin pattern.reviewsGiven pattern.reviewsReceived /
          qmax pattern.reviewsGiven
            (if pattern.reviewsReceived = 0 then 1 else pattern.reviewsReceived) * 100
      else 0
    let score : ℚ :=
      collaboratorScore * 0.3 + maintainerInteractionRate * 0.3 +
      crossRepoScore * 0.2 + reciprocity * 0.2
    { score := clamp100 score
      breakdown :=
        { uniqueCollaborators := pattern.uniqueCollaborators
          maintainerInteractions := pattern.maintainerInteractions
          crossRepoCollaborations := pattern.crossRepositoryCollaborations
          reviewReciprocity := reciprocity } }

structure AntiGamingBreakdown where
  spamDetection : ℚ
  forkFarmingPenalty : ℚ
  patternAnomalies : ℚ
  behavioralRedFlags : ℚ
deriving DecidableEq, Repr

/-- Translation of `calculateAntiGamingScore` (scores/trust.ts). -/
def calculateAntiGamingScore (pattern : ContributionPattern) (spam : SpamDetection)
    (config : TrustScoreConfigFull) : Scored AntiGamingBreakdown :=
  let spamScore : ℚ :=
    qmax (100 - (if spam.excessiveDailyPRs then 30 else 0)
             - (if spam.identicalCommitMessages then 25 else 0)
             - (if spam.forkFarming then 40 else 0)
             - (if spam.selfMergeFarming then 30 else 0)
             - (if spam.repositoryFarming then 20 else 0)) 0
  let forkRatio : ℚ :=
    if 0 < pattern.totalPRs then pattern.forkPRs / pattern.totalPRs else 0
  let forkFarmingPenalty : ℚ :=
    if forkRatio = 1 ∧ pattern.originalRepoContributions = 0 then 100
    else if 0.8 < forkRatio then 70
    else if 0.5 < forkRatio then 40
    else 0
  let patternAnomalies : ℚ :=
    qmax (100 - (if 10 < pattern.averagePRsPerDay then 20 else 0)
             - (if config.maxPRsPerDay < pattern.maxPRsInSingleDay then 30 else 0)
             - (if 0 < pattern.identicalCommitMessages then 15 else 0)) 0
  let selfMergeRatio : ℚ :=
    if 0 < pattern.totalPRs then pattern.selfMergedPRs / pattern.totalPRs else 0
  let behavioralRedFlags : ℚ :=
    qmax (100 - (if 0.7 < selfMergeRatio then 40 else 0)
             - (if 0.5 < selfMergeRatio then 25 else 0)
             - (if 100 < pattern.uniqueRepositories ∧ pattern.repositoriesWithMultiplePRs < 10
                then 30 else 0)) 0
  let score : ℚ :=
    spamScore * 0.4 + (100 - forkFarmingPenalty) * 0.3 +
    patternAnomalies * 0.2 + behavioralRedFlags * 0.1
  { score := clamp100 score
    breakdown :=
      { spamDetection := spamScore
        forkFarmingPenalty := forkFarmingPenalty
        patternAnomalies := patternAnomalies
        behavioralRedFlags := behavioralRedFlags } }

structure TrustSignals where
  accountAge : ℚ
  accountMaturity : ℚ
  contributionSpan : ℚ
  repositoryDiversity : ℚ
  maintainerTrust : ℚ
  collaborationDepth : ℚ
  forkContributionRatio : ℚ
  originalRepoContributionRatio : ℚ
deriving DecidableEq, Repr

structure TrustComponents where
  accountAuthenticity : Scored AccountAuthBreakdown
  contributionAuthenticity : Scored ContributionAuthBreakdown
  collaborationSignals : Scored CollaborationSignalsBreakdown
  antiGamingScore : Scored AntiGamingBreakdown
deriving DecidableEq, Repr

structure TrustScoreResult where
  totalScore : ℚ
  isAuthentic : Bool
  confidence : ℚ
  components : TrustComponents
  signals : TrustSignals
  spamDetection : SpamDetection
  redFlags : List String
  greenFlags : List String
deriving DecidableEq, Repr

/-- Translation of `calculateTrustScore` (scores/trust.ts). `now` models the
timestamps of the `new Date()` calls and `log10` models `Math.log10`. After
config resolution the weights are all present, so the `?? 0.25` style
fallbacks in the source are no-ops. -/
def calculateTrustScore (now : ℚ) (log10 : ℚ → ℚ) (account : GitHubAccount)
    (contributionPattern : ContributionPattern) (config : Option TrustScoreConfig := none) :
    TrustScoreResult :=
  let fullConfig := resolveTrustConfig config
  let spam := detectSpamPatterns contributionPattern fullConfig
  let accountAuth := calculateAccountAuthenticity now account contributionPattern fullConfig
  let contributionAuth := calculateContributionAuthenticity log10 contributionPattern fullConfig
  let collaboration := calculateCollaborationSignals log10 contributionPattern
  let antiGaming := calculateAntiGamingScore contributionPattern spam fullConfig
  let totalScore : ℚ :=
    accountAuth.score * fullConfig.weights.accountAuthenticity +
    contributionAuth.score * fullConfig.weights.contributionAuthenticity +
    collaboration.score * fullConfig.weights.collaborationSignals +
    antiGaming.score * fullConfig.weights.antiGamingScore
  let contributionSpan : ℚ := contributionSpanDays contributionPattern
  let accountAge : ℚ := (now - account.createdAt.ms) / 86400000
  let forkRatio : ℚ :=
    if 0 < contributionPattern.totalPRs then
      contributionPattern.forkPRs / contributionPattern.totalPRs
    else 0
  let originalRepoRatio : ℚ :=
    if 0 < contributionPattern.totalPRs then
      contributionPattern.originalRepoContributions / contributionPattern.totalPRs
    else 0
  let maintainerTrust : ℚ :=
    if 0 < contributionPattern.mergedPRs then
      (contributionPattern.mergedPRs - contributionPattern.selfMergedPRs) /
        contributionPattern.mergedPRs * 100
    else 0
  let signals : TrustSignals :=
    { accountAge := accountAge
      accountMaturity := accountAuth.breakdown.accountMaturity
      contributionSpan := contributionSpan
      repositoryDiversity := contributionAuth.breakdown.repositoryDiversity
      maintainerTrust := maintainerTrust
      collaborationDepth := collaboration.score
      forkContributionRatio := forkRatio
      originalRepoContributionRatio := originalRepoRatio }
  let redFlags : List String :=
    (if spam.forkFarming then ["Fork-only contributions detected"] else []) ++
    (if spam.selfMergeFarming then ["High rate of self-merged PRs"] else []) ++
    (if spam.excessiveDailyPRs then ["Excessive daily PR activity"] else []) ++
    (if spam.repositoryFarming then ["Repository farming pattern detected"] else []) ++
    (if 0.8 < forkRatio then ["High fork contribution ratio"] else []) ++
    (if accountAge < fullConfig.minAccountAgeDays then ["Account too new"] else []) ++
    (if contributionPattern.uniqueRepositories < fullConfig.minUniqueRepos then
      ["Insufficient repository diversity"] else [])
  let greenFlags : List String :=
    (if 80 < signals.maintainerTrust then ["High maintainer trust"] else []) ++
    (if 70 < signals.repositoryDiversity then ["Strong repository diversity"] else []) ++
    (if 70 < signals.collaborationDepth then ["Active collaboration"] else []) ++
    (if 365 < contributionSpan then ["Long-term consistent contributions"] else []) ++
    (if 0.7 < originalRepoRatio then ["Primarily original repository contributions"] else [])
  let isAuthentic : Bool :=
    decide (60 ≤ totalScore) && decide (redFlags.length < 3) && !spam.forkFarming
  let confidence : ℚ :=
    qmax (100 - (if contributionPattern.totalPRs < 5 then 30 else 0)
             - (if contributionSpan < 30 then 20 else 0)
             - (if contributionPattern.uniqueRepositories < 2 then 25 else 0)) 0
  { totalScore := clamp100 totalScore
    isAuthentic := isAuthentic
    confidence := confidence
    components :=
      { accountAuthenticity := accountAuth
        contributionAuthenticity := contributionAuth
        collaborationSignals := collaboration
        antiGamingScore := antiGaming }
    signals := signals
    spamDetection := spam
    redFlags := redFlags
    greenFlags := greenFlags }

/-! ## Impact score (`scores/impact.ts`) -/

structure ImpactWeights where
  prImpact : ℚ
  collaboration : ℚ
  longevity : ℚ
  quality : ℚ
deriving DecidableEq, Repr

structure ImpactWeightsPartial where
  prImpact : Option ℚ := none
  collaboration : Option ℚ := none
  longevity : Option ℚ := none
  quality : Option ℚ := none
deriving DecidableEq, Repr

/-- Partial impact configuration (the TS `ImpactScoreConfig`). -/
structure ImpactScoreConfig where
  weights : Option ImpactWeightsPartial := none
  timeDecayFactor : Option ℚ := none
  minPRSize : Option ℚ := none
  maxPRFrequency : Option ℚ := none
  activityWindowMonths : Option ℚ := none
  selfMergePenalty : Option ℚ := none
deriving DecidableEq, Repr

/-- Fully resolved impact configuration (the TS `Required<ImpactScoreConfig>`). -/
structure ImpactScoreConfigFull where
  weights : ImpactWeights
  timeDecayFactor : ℚ
  minPRSize : ℚ
  maxPRFrequency : ℚ
  activityWindowMonths : ℚ
  selfMergePenalty : ℚ
deriving DecidableEq, Repr

/-- The impact calculator's `DEFAULT_CONFIG`. -/
def impactDefaultConfig : ImpactScoreConfigFull :=
  { weights := { prImpact := 0.4, collaboration := 0.3, longevity := 0.2, quality := 0.1 }
    timeDecayFactor := 0.95
    minPRSize := 1
    maxPRFrequency := 10
    activityWindowMonths := 24
    selfMergePenalty := 0.0 }

/-- The config merge at the top of `calculateImpactScore`. -/
def resolveImpactConfig (config : Option ImpactScoreConfig) : ImpactScoreConfigFull :=
  match config with
  | none => impactDefaultConfig
  | some c =>
    { weights :=
        match c.weights with
        | none => impactDefaultConfig.weights
        | some w =>
          { prImpact := w.prImpact.getD impactDefaultConfig.weights.prImpact
            collaboration := w.collaboration.getD impactDefaultConfig.weights.collaboration
            longevity := w.longevity.getD impactDefaultConfig.weights.longevity
            quality := w.quality.getD impactDefaultConfig.weights.quality }
      timeDecayFactor := c.timeDecayFactor.getD impactDefaultConfig.timeDecayFactor
      minPRSize := c.minPRSize.getD impactDefaultConfig.minPRSize
      maxPRFrequency := c.maxPRFrequency.getD impactDefaultConfig.maxPRFrequency
      activityWindowMonths := c.activityWindowMonths.getD impactDefaultConfig.activityWindowMonths
      selfMergePenalty := c.selfMergePenalty.getD impactDefaultConfig.selfMergePenalty }

/-- Number of PRs in `prs` merged on the same ISO day as `pr`; models the
`prsByDay` map lookup in `filterSpamPRs`. -/
def sameDayCount (prs : List MergedPR) (pr : MergedPR) : ℕ :=
  (prs.filter fun q => dayKey q.mergedAt == dayKey pr.mergedAt).length

/-- Translation of `filterSpamPRs` (scores/impact.ts): a PR is spam when it is
below `minPRSize` or its day bucket (over the whole input list) exceeds
`maxPRFrequency`. Returns `(valid, spam)`. -/
def filterSpamPRs (prs : List MergedPR) (config : ImpactScoreConfigFull) :
    List MergedPR × List MergedPR :=
  (prs.filter fun pr =>
      !(decide (pr.filesChanged < config.minPRSize) ||
        decide (config.maxPRFrequency < (sameDayCount prs pr : ℚ))),
   prs.filter fun pr =>
      decide (pr.filesChanged < config.minPRSize) ||
      decide (config.maxPRFrequency < (sameDayCount prs pr : ℚ)))

/-- Translation of `filterSelfMergedPRs` (scores/impact.ts). Returns
`(valid, selfMerged)`. -/
def filterSelfMergedPRs (prs : List MergedPR) : List MergedPR × List MergedPR :=
  (prs.filter fun pr => !(pr.author == pr.mergedBy),
   prs.filter fun pr => pr.author == pr.mergedBy)

/-- Translation of `applyTimeDecay` (scores/impact.ts); `powQ` models
`Math.pow`. -/
def applyTimeDecay (powQ : ℚ → ℚ → ℚ) (pr : MergedPR) (referenceDate : ℚ)
    (decayFactor : ℚ) : ℚ :=
  powQ decayFactor ((referenceDate - pr.mergedAt.ms) / (1000 * 60 * 60 * 24 * 30))

/-- Distinct repositories of a PR list, in first-occurrence order (models
`new Set(prs.map(pr => pr.repository))`). -/
def distinctRepos (prs : List MergedPR) : List String :=
  (prs.map fun pr => pr.repository).eraseDups

structure ComponentBreakdown where
  mergedPRCount : ℚ
  reviewEngagement : ℚ
  acceptanceRate : ℚ
  repoDiversity : ℚ
  maintainerTrust : ℚ
deriving DecidableEq, Repr

/-- Translation of `calculatePRImpactScore` (scores/impact.ts); `now` models
the `new Date()` taken there when the PR list is nonempty. -/
def calculatePRImpactScore (now : ℚ) (log10 : ℚ → ℚ) (powQ : ℚ → ℚ → ℚ)
    (prs : List MergedPR) (reviewsReceived : List CodeReview)
    (config : ImpactScoreConfigFull) : Scored ComponentBreakdown :=
  if prs.length = 0 then
    { score := 0
      breakdown :=
        { mergedPRCount := 0, reviewEngagement := 0, acceptanceRate := 0
          repoDiversity := 0, maintainerTrust := 0 } }
  else
    let prCountScore : ℚ :=
      prs.foldl (fun sum pr => sum + applyTimeDecay powQ pr now config.timeDecayFactor) 0
    let normalizedPRCount : ℚ := qmin (prCountScore / 10) 1 * 100
    let totalReviewComments : ℚ :=
      reviewsReceived.foldl (fun sum review => sum + review.commentCount) 0
    let avgReviewComments : ℚ :=
      if 0 < prs.length then totalReviewComments / prs.length else 0
    let reviewEngagement : ℚ := qmin (avgReviewComments / 5) 1 * 100
    let acceptanceRate : ℚ := 100
    let uniqueRepos : ℕ := (distinctRepos prs).length
    let repoDiversity : ℚ := qmin (log10 (uniqueRepos + 1) / log10 50) 1 * 100
    let maintainerMerges : ℕ := (prs.filter fun pr => pr.isMaintainerMerge).length
    let maintainerTrust : ℚ := maintainerMerges / (prs.length : ℚ) * 100
    let score : ℚ :=
      normalizedPRCount * 0.3 + reviewEngagement * 0.25 + acceptanceRate * 0.15 +
      repoDiversity * 0.15 + maintainerTrust * 0.15
    { score := qmin score 100
      breakdown :=
        { mergedPRCount := normalizedPRCount
          reviewEngagement := reviewEngagement
          acceptanceRate := acceptanceRate
          repoDiversity := repoDiversity
          maintainerTrust := maintainerTrust } }

structure CollaborationBreakdown where
  crossRepoContributions : ℚ
  reviewReciprocity : ℚ
  issueEngagement : ℚ
  teamParticipation : ℚ
deriving DecidableEq, Repr

/-- Translation of `calculateCollaborationScore` (scores/impact.ts). -/
def calculateCollaborationScore (log10 : ℚ → ℚ) (prs : List MergedPR)
    (reviewsGiven reviewsReceived : List CodeReview) (issues : List Issue)
    (repositories : List RepositoryContribution) : Scored CollaborationBreakdown :=
  if prs.length = 0 then
    { score := 0
      breakdown :=
        { crossRepoContributions := 0, reviewReciprocity := 0
          issueEngagement := 0, teamParticipation := 0 } }
  else
    let uniqueRepos : ℕ := (distinctRepos prs).length
    let crossRepoContributions : ℚ := qmin (log10 (uniqueRepos + 1) / log10 20) 1 * 100
    let reviewsGivenCount : ℕ := reviewsGiven.length
    let reviewsReceivedCount : ℕ := reviewsReceived.length
    let totalReviews : ℕ := reviewsGivenCount + reviewsReceivedCount
    let reciprocity : ℚ :=
      if 0 < totalReviews then
        (min reviewsGivenCount reviewsReceivedCount : ℚ) /
          (max reviewsGivenCount reviewsReceivedCount : ℚ) * 100
      else 0
    let issuesLeadingToPRs : ℕ := (issues.filter fun issue => issue.ledToMergedPR).length
    let issueEngagement : ℚ :=
      if 0 < issues.length then (issuesLeadingToPRs : ℚ) / (issues.length : ℚ) * 100 else 0
    let teamRepos : ℕ := (repositories.filter fun repo => decide (1 < repo.contributorCount)).length
    let teamParticipation : ℚ :=
      if 0 < repositories.length then (teamRepos : ℚ) / (repositories.length : ℚ) * 100 else 0
    let score : ℚ :=
      crossRepoContributions * 0.3 + reciprocity * 0.3 +
      issueEngagement * 0.2 + teamParticipation * 0.2
    { score := qmin score 100
      breakdown :=
        { crossRepoContributions := crossRepoContributions
          reviewReciprocity := reciprocity
          issueEngagement := issueEngagement
          teamParticipation := teamParticipation } }

structure LongevityBreakdown where
  activitySpan : ℚ
  consistency : ℚ
  temporalDistribution : ℚ
deriving DecidableEq, Repr

/-- Months with at least one merged PR, as distinct `year-month` keys (models
the `monthsWithPRs` set). -/
def monthsWithPRs (prs : List MergedPR) : List (ℤ × ℕ) :=
  (prs.map fun pr => (pr.mergedAt.year, pr.mergedAt.month)).eraseDups

/-- Translation of `calculateLongevityScore` (scores/impact.ts). -/
def calculateLongevityScore (prs : List MergedPR) (activitySpan : ActivitySpan) :
    Scored LongevityBreakdown :=
  if prs.length = 0 then
    { score := 0
      breakdown := { activitySpan := 0, consistency := 0, temporalDistribution := 0 } }
  else
    let spanMonths : ℚ :=
      (activitySpan.lastPRDate.ms - activitySpan.firstPRDate.ms) / (1000 * 60 * 60 * 24 * 30)
    let activitySpanScore : ℚ := qmin (spanMonths / 24) 1 * 100
    let consistency : ℚ :=
      if 0 < spanMonths then
        ((monthsWithPRs prs).length : ℚ) / qmax spanMonths 1 * 100
      else 0
    let years : ℕ := ((prs.map fun pr => pr.mergedAt.year).eraseDups).length
    let temporalDistribution : ℚ := qmin ((years : ℚ) / 3) 1 * 100
    let score : ℚ :=
      activitySpanScore * 0.4 + consistency * 0.35 + temporalDistribution * 0.25
    { score := qmin score 100
      breakdown :=
        { activitySpan := spanMonths
          consistency := consistency
          temporalDistribution := temporalDistribution } }

structure QualityBreakdown where
  reviewDepth : ℚ
  maintainerTrust : ℚ
  contributionComplexity : ℚ
  antiSpamScore : ℚ
deriving DecidableEq, Repr

/-- Translation of `calculateQualityScore` (scores/impact.ts). -/
def calculateQualityScore (prs : List MergedPR) : Scored QualityBreakdown :=
  if prs.length = 0 then
    { score := 0
      breakdown :=
        { reviewDepth := 0, maintainerTrust := 0
          contributionComplexity := 0, antiSpamScore := 0 } }
  else
    let avgReviewRounds : ℚ :=
      prs.foldl (fun sum pr => sum + pr.reviewRounds) 0 / (prs.length : ℚ)
    let reviewDepth : ℚ := qmin (avgReviewRounds / 3) 1 * 100
    let maintainerMerges : ℕ := (prs.filter fun pr => pr.isMaintainerMerge).length
    let maintainerTrust : ℚ := (maintainerMerges : ℚ) / (prs.length : ℚ) * 100
    let avgFilesChanged : ℚ :=
      prs.foldl (fun sum pr => sum + pr.filesChanged) 0 / (prs.length : ℚ)
    let avgDirectoriesTouched : ℚ :=
      prs.foldl (fun sum pr => sum + pr.directoriesTouched) 0 / (prs.length : ℚ)
    let complexity : ℚ := qmin ((avgFilesChanged + avgDirectoriesTouched) / 10) 1 * 100
    let forkPRs : ℕ := (prs.filter fun pr => pr.isFork).length
    let forkPenalty : ℚ := (forkPRs : ℚ) / (prs.length : ℚ) * 50
    let antiSpamScore : ℚ := qmax (100 - forkPenalty) 0
    let score : ℚ :=
      reviewDepth * 0.3 + maintainerTrust * 0.3 + complexity * 0.25 + antiSpamScore * 0.15
    { score := qmin score 100
      breakdown :=
        { reviewDepth := reviewDepth
          maintainerTrust := maintainerTrust
          contributionComplexity := complexity
          antiSpamScore := antiSpamScore } }

structure RepoContributionEntry where
  repo : String
  prCount : ℕ
  score : ℚ
deriving DecidableEq, Repr

structure RecentActivityEntry where
  date : JSDate
  event : String
  impact : ℚ
deriving DecidableEq, Repr

structure PenaltyEntry where
  reason : String
  count : ℕ
  impact : ℚ
deriving DecidableEq, Repr

structure ImpactComponents where
  prImpact : Scored ComponentBreakdown
  collaboration : Scored CollaborationBreakdown
  longevity : Scored LongevityBreakdown
  quality : Scored QualityBreakdown
deriving DecidableEq, Repr

structure ImpactSignals where
  totalMergedPRs : ℕ
  selfMergedPRs : ℕ
  spamPRs : ℕ
  activeRepositories : ℕ
  activitySpanMonths : ℚ
deriving DecidableEq, Repr

structure ImpactExplainability where
  topContributingRepos : List RepoContributionEntry
  recentActivity : List RecentActivityEntry
  penalties : List PenaltyEntry
deriving DecidableEq, Repr

structure ImpactScoreResult where
  totalScore : ℚ
  components : ImpactComponents
  signals : ImpactSignals
  explainability : ImpactExplainability
deriving DecidableEq, Repr

/-- Stable insertion into a list sorted by descending `prCount`; together with
`sortByPRCountDesc` this models the (stable) `Array.prototype.sort` with
comparator `(a, b) => b.prCount - a.prCount`. -/
def insertByPRCount (x : RepoContributionEntry) :
    List RepoContributionEntry → List RepoContributionEntry
  | [] => [x]
  | y :: ys => if y.prCount < x.prCount then x :: y :: ys else y :: insertByPRCount x ys

def sortByPRCountDesc : List RepoContributionEntry → List RepoContributionEntry
  | [] => []
  | x :: xs => insertByPRCount x (sortByPRCountDesc xs)

/-- Last `n` elements of a list (models `slice(-n)` for nonempty `n`). -/
def takeLast (n : ℕ) (l : List α) : List α := l.drop (l.length - n)

/-- Translation of `calculateImpactScore` (scores/impact.ts). `now` models the
`new Date()` calls, `log10` and `powQ` model `Math.log10` / `Math.pow`. The
`?? 0.4` style weight fallbacks are no-ops after config resolution. -/
def calculateImpactScore (now : ℚ) (log10 : ℚ → ℚ) (powQ : ℚ → ℚ → ℚ)
    (githubActivity : GitHubActivity) (config : Option ImpactScoreConfig := none) :
    ImpactScoreResult :=
  let fullConfig := resolveImpactConfig config
  let fsm := filterSelfMergedPRs githubActivity.mergedPRs
  let validPRs := fsm.1
  let selfMerged := fsm.2
  let fsp := filterSpamPRs validPRs fullConfig
  let cleanPRs := fsp.1
  let spam := fsp.2
  let prImpact :=
    calculatePRImpactScore now log10 powQ cleanPRs githubActivity.reviewsReceived fullConfig
  let collaboration :=
    calculateCollaborationScore log10 cleanPRs githubActivity.reviewsGiven
      githubActivity.reviewsReceived githubActivity.issues githubActivity.repositories
  let longevity := calculateLongevityScore cleanPRs githubActivity.activitySpan
  let quality := calculateQualityScore cleanPRs
  let totalScore : ℚ :=
    prImpact.score * fullConfig.weights.prImpact +
    collaboration.score * fullConfig.weights.collaboration +
    longevity.score * fullConfig.weights.longevity +
    quality.score * fullConfig.weights.quality
  let activitySpanMonths : ℚ :=
    (githubActivity.activitySpan.lastPRDate.ms - githubActivity.activitySpan.firstPRDate.ms) /
      (1000 * 60 * 60 * 24 * 30)
  let topContributingRepos : List RepoContributionEntry :=
    (sortByPRCountDesc
      ((distinctRepos cleanPRs).map fun repo =>
        let count := (cleanPRs.filter fun pr => pr.repository == repo).length
        { repo := repo, prCount := count, score := (count : ℚ) * 10 })).take 10
  let recentActivity : List RecentActivityEntry :=
    ((takeLast 10 cleanPRs).map fun pr =>
      { date := pr.mergedAt
        event := "Merged PR in " ++ pr.repository
        impact := applyTimeDecay powQ pr now fullConfig.timeDecayFactor * 10 }).reverse
  let penalties : List PenaltyEntry :=
    [ { reason := "Self-merged PRs excluded", count := selfMerged.length, impact := 0 },
      { reason := "Spam PRs filtered", count := spam.length, impact := 0 } ]
  { totalScore := clamp100 totalScore
    components :=
      { prImpact := prImpact
        collaboration := collaboration
        longevity := longevity
        quality := quality }
    signals :=
      { totalMergedPRs := githubActivity.mergedPRs.length
        selfMergedPRs := selfMerged.length
        spamPRs := spam.length
        activeRepositories := (distinctRepos cleanPRs).length
        activitySpanMonths := qmax activitySpanMonths 0 }
    explainability :=
      { topContributingRepos := topContributingRepos
        recentActivity := recentActivity
        penalties := penalties } }

/-! ## Role types and compatibility data model (`types/roles.ts`, `types/github.ts`) -/

inductive RoleType where
  | backend | frontend | fullstack | devops | mobile
  | dataEngineer | security | mlEngineer | sre | platformEngineer
deriving DecidableEq, Repr

/-- The role identifier string of each `RoleType` literal. -/
def roleName : RoleType → String
  | .backend => "backend"
  | .frontend => "frontend"
  | .fullstack => "fullstack"
  | .devops => "devops"
  | .mobile => "mobile"
  | .dataEngineer => "data-engineer"
  | .security => "security"
  | .mlEngineer => "ml-engineer"
  | .sre => "sre"
  | .platformEngineer => "platform-engineer"

structure RoleQuery where
  role : RoleType
  requiredTechnologies : Option (List String) := none
  preferredExperience : Option (List String) := none
deriving DecidableEq, Repr

inductive ChangeType where
  | added | modified | deleted
deriving DecidableEq, Repr

structure FileChangeAnalysis where
  filePath : String
  fileExtension : String
  changeType : ChangeType
  linesAdded : ℚ
  linesDeleted : ℚ
  directory : String
deriving DecidableEq, Repr

structure PRAnalysis where
  id : String
  repository : String
  title : String
  body : Option String
  mergedAt : JSDate
  filesChanged : List FileChangeAnalysis
  languages : List String
  directories : List String
  isInfrastructureChange : Bool
  isAPIChange : Bool
  isUIChange : Bool
  isDatabaseChange : Bool
  isConfigChange : Bool
  isTestChange : Bool
  isDocumentationChange : Bool
deriving DecidableEq, Repr

structure IssueAnalysis where
  id : String
  repository : String
  title : String
  body : Option String
  labels : List String
  isBug : Bool
  isFeature : Bool
  isInfrastructure : Bool
  isSecurity : Bool
deriving DecidableEq, Repr

structure RepositoryAnalysis where
  repository : String
  isFork : Bool
  primaryLanguage : String
  languages : List (String × ℚ)
  topics : List String
  description : Option String
  stars : ℚ
  isArchived : Bool
deriving DecidableEq, Repr

structure ReviewAnalysis where
  repository : String
  prId : String
  reviewedFiles : List String
  languages : List String
deriving DecidableEq, Repr

structure EngineerActivity where
  prs : List PRAnalysis
  issues : List IssueAnalysis
  repositories : List RepositoryAnalysis
  codeReviews : List ReviewAnalysis
deriving DecidableEq, Repr

structure RoleIndicators where
  languages : List String
  fileExtensions : List String
  keywords : List String
  architecturePatterns : List String
  negativeIndicators : List String
deriving DecidableEq, Repr

/-- The static `ROLE_TECHNOLOGY_INDICATORS` table (scores/compatibility.ts). -/
def ROLE_TECHNOLOGY_INDICATORS : RoleType → RoleIndicators
  | .backend =>
    { languages := ["python", "java", "go", "rust", "ruby", "php", "scala", "kotlin", "c#", "c++"]
      fileExtensions := [".py", ".java", ".go", ".rs", ".rb", ".php", ".scala", ".kt", ".cs", ".cpp"]
      keywords := ["api", "server", "backend", "service", "microservice", "rest", "graphql",
        "grpc", "database", "orm"]
      architecturePatterns := ["microservices", "monolith", "api-gateway", "service-mesh",
        "event-driven"]
      negativeIndicators := ["react", "vue", "angular", "css", "html", "frontend", "ui-component"] }
  | .frontend =>
    { languages := ["javascript", "typescript", "html", "css", "scss", "sass", "less"]
      fileExtensions := [".js", ".jsx", ".ts", ".tsx", ".html", ".css", ".scss", ".sass",
        ".less", ".vue"]
      keywords := ["react", "vue", "angular", "component", "ui", "frontend", "client",
        "browser", "dom"]
      architecturePatterns := ["spa", "ssr", "component-library", "design-system", "pwa"]
      negativeIndicators := ["database", "server", "api-server", "microservice",
        "backend-service"] }
  | .fullstack =>
    { languages := ["javascript", "typescript", "python", "java", "ruby", "php"]
      fileExtensions := [".js", ".jsx", ".ts", ".tsx", ".py", ".java", ".rb", ".php"]
      keywords := ["fullstack", "full-stack", "api", "component", "server", "client"]
      architecturePatterns := ["monorepo", "fullstack-app", "isomorphic"]
      negativeIndicators := [] }
  | .devops =>
    { languages := ["yaml", "python", "bash", "shell", "groovy"]
      fileExtensions := [".yaml", ".yml", ".tf", ".tfvars", ".sh", ".py", ".groovy",
        ".jenkinsfile"]
      keywords := ["docker", "kubernetes", "ci/cd", "terraform", "ansible", "pipeline",
        "deployment", "infrastructure"]
      architecturePatterns := ["infrastructure-as-code", "ci-cd", "containerization",
        "orchestration"]
      negativeIndicators := ["ui-component", "frontend", "react-component"] }
  | .mobile =>
    { languages := ["swift", "kotlin", "java", "dart", "objective-c"]
      fileExtensions := [".swift", ".kt", ".java", ".dart", ".m", ".mm", ".xcodeproj"]
      keywords := ["ios", "android", "mobile", "app", "react-native", "flutter", "xcode"]
      architecturePatterns := ["mobile-app", "native-app", "cross-platform"]
      negativeIndicators := ["web-server", "backend-api", "microservice"] }
  | .dataEngineer =>
    { languages := ["python", "sql", "scala", "java"]
      fileExtensions := [".py", ".sql", ".scala", ".java", ".ipynb"]
      keywords := ["data", "etl", "pipeline", "spark", "hadoop", "warehouse", "analytics",
        "big-data"]
      architecturePatterns := ["data-pipeline", "etl", "data-warehouse", "batch-processing"]
      negativeIndicators := ["ui", "frontend", "component"] }
  | .security =>
    { languages := ["python", "go", "rust", "c", "c++"]
      fileExtensions := [".py", ".go", ".rs", ".c", ".cpp"]
      keywords := ["security", "vulnerability", "penetration", "encryption", "auth", "oauth",
        "jwt", "ssl", "tls"]
      architecturePatterns := ["security-audit", "penetration-test", "vulnerability-scan"]
      negativeIndicators := [] }
  | .mlEngineer =>
    { languages := ["python", "r", "julia"]
      fileExtensions := [".py", ".r", ".jl", ".ipynb", ".pkl"]
      keywords := ["machine-learning", "ml", "tensorflow", "pytorch", "model", "training",
        "neural", "deep-learning"]
      architecturePatterns := ["ml-pipeline", "model-training", "feature-engineering"]
      negativeIndicators := ["ui", "frontend", "component"] }
  | .sre =>
    { languages := ["python", "go", "yaml", "bash"]
      fileExtensions := [".py", ".go", ".yaml", ".yml", ".sh", ".tf"]
      keywords := ["reliability", "monitoring", "alerting", "slo", "sla", "incident", "oncall",
        "observability"]
      architecturePatterns := ["monitoring", "alerting", "incident-response",
        "reliability-engineering"]
      negativeIndicators := ["ui-component", "frontend"] }
  | .platformEngineer =>
    { languages := ["go", "python", "yaml", "rust"]
      fileExtensions := [".go", ".py", ".yaml", ".yml", ".rs"]
      keywords := ["platform", "infrastructure", "tooling", "developer-experience",
        "internal-tools"]
      architecturePatterns := ["platform-as-a-service", "internal-platform",
        "developer-tooling"]
      negativeIndicators := ["customer-facing", "ui-component"] }

/-- Insertion-ordered set insertion (models `Set.prototype.add` followed by
`Array.from`). -/
def addIfNew (l : List String) (s : String) : List String :=
  if l.contains s then l else l ++ [s]

/-- Template string lowering used throughout: lowercased
`title ++ " " ++ (body || "")`. -/
def prText (title : String) (body : Option String) : String :=
  (title ++ " " ++ optStr body).toLower

/-- Lowercased `description || "" ++ " " ++ topics.join(" ")` text of a
repository (models the `repoText` template literal). -/
def repoText (description : Option String) (topics : List String) : String :=
  (optStr description ++ " " ++ String.intercalate " " topics).toLower

/-- Result record of `analyzeFileChanges` (scores/compatibility.ts). -/
structure FileChangeSummary where
  relevantFiles : ℕ
  totalFiles : ℕ
  matchedTechnologies : List String
  mismatchedTechnologies : List String
deriving DecidableEq, Repr

/-- Translation of `analyzeFileChanges` (scores/compatibility.ts). -/
def analyzeFileChanges (files : List FileChangeAnalysis) (role : RoleType) :
    FileChangeSummary :=
  let indicators := ROLE_TECHNOLOGY_INDICATORS role
  files.foldl
    (fun acc file =>
      let ext := file.fileExtension.toLower
      let path := file.filePath.toLower
      let extMatch := indicators.fileExtensions.any fun e => ext == e
      let kwMatch := indicators.keywords.any fun kw =>
        strContains path kw || strContains file.directory kw
      let isRelevant := extMatch || kwMatch
      { relevantFiles := acc.relevantFiles + (if isRelevant then 1 else 0)
        totalFiles := acc.totalFiles + 1
        matchedTechnologies :=
          if extMatch then addIfNew acc.matchedTechnologies ext else acc.matchedTechnologies
        mismatchedTechnologies :=
          if indicators.negativeIndicators.any fun ni =>
              strContains path ni || strContains file.directory ni then
            addIfNew acc.mismatchedTechnologies ext
          else acc.mismatchedTechnologies })
    { relevantFiles := 0, totalFiles := 0
      matchedTechnologies := [], mismatchedTechnologies := [] }

/-- Result record of `calculateTechnologyStackMatch`. -/
structure TechStackSummary where
  score : ℚ
  matched : List String
  mismatched : List String
deriving DecidableEq, Repr

/-- Translation of `calculateTechnologyStackMatch` (scores/compatibility.ts):
scans PR files and languages, then repository language percentages, topics
and descriptions; scores `min(matches*15,100) - min(mismatches*10,50)`
floored at 0. -/
def calculateTechnologyStackMatch (activity : EngineerActivity) (role : RoleType) :
    TechStackSummary :=
  let indicators := ROLE_TECHNOLOGY_INDICATORS role
  let afterPRs : List String × List String :=
    activity.prs.foldl
      (fun acc pr =>
        let acc := pr.filesChanged.foldl
          (fun (acc : List String × List String) file =>
            let ext := file.fileExtension.toLower
            let path := file.filePath.toLower
            let matched :=
              if indicators.fileExtensions.contains ext then addIfNew acc.1 ext else acc.1
            let mismatched :=
              if indicators.negativeIndicators.any fun ni => strContains path ni then
                addIfNew acc.2 ext
              else acc.2
            (matched, mismatched))
          acc
        let matched := pr.languages.foldl
          (fun m lang =>
            if indicators.languages.contains lang.toLower then addIfNew m lang else m)
          acc.1
        (matched, acc.2))
      ([], [])
  let matchedAll : List String :=
    activity.repositories.foldl
      (fun m repo =>
        let m := repo.languages.foldl
          (fun m entry =>
            if 10 < entry.2 ∧ indicators.languages.contains entry.1.toLower then
              addIfNew m entry.1
            else m)
          m
        if indicators.keywords.any fun kw =>
            strContains (repoText repo.description repo.topics) kw then
          addIfNew m "repository-keyword"
        else m)
      afterPRs.1
  let matchCount : ℕ := matchedAll.length
  let mismatchCount : ℕ := afterPRs.2.length
  let baseScore : ℚ := qmin ((matchCount : ℚ) * 15) 100
  let penalty : ℚ := qmin ((mismatchCount : ℚ) * 10) 50
  { score := qmax (baseScore - penalty) 0
    matched := matchedAll
    mismatched := afterPRs.2 }

/-- Result record of `calculateDomainContributionDepth`. -/
structure DomainDepthSummary where
  score : ℚ
  relevantPRs : ℕ
  totalPRs : ℕ
deriving DecidableEq, Repr

/-- Translation of `calculateDomainContributionDepth` (scores/compatibility.ts).
Note that the source increments `relevantPRs` once for the `>50%`
relevant-files condition and again, independently, for the title/body keyword
condition, so a single PR can count twice. -/
def calculateDomainContributionDepth (activity : EngineerActivity) (role : RoleType) :
    DomainDepthSummary :=
  let indicators := ROLE_TECHNOLOGY_INDICATORS role
  let relevantPRs : ℕ :=
    activity.prs.foldl
      (fun acc pr =>
        let analysis := analyzeFileChanges pr.filesChanged role
        let relevanceRatio : ℚ :=
          if 0 < analysis.totalFiles then
            (analysis.relevantFiles : ℚ) / (analysis.totalFiles : ℚ)
          else 0
        let acc := acc + (if (1:ℚ)/2 < relevanceRatio then 1 else 0)
        acc + (if indicators.keywords.any fun kw => strContains (prText pr.title pr.body) kw
               then 1 else 0))
      0
  let totalPRs : ℕ := activity.prs.length
  let depthScore : ℚ :=
    if 0 < totalPRs then (relevantPRs : ℚ) / (totalPRs : ℚ) * 100 else 0
  { score := depthScore, relevantPRs := relevantPRs, totalPRs := totalPRs }

/-- Result record of `calculateArchitecturePatternMatch`. -/
structure ArchPatternSummary where
  score : ℚ
  patterns : List String
deriving DecidableEq, Repr

/-- Translation of `calculateArchitecturePatternMatch` (scores/compatibility.ts). -/
def calculateArchitecturePatternMatch (activity : EngineerActivity) (role : RoleType) :
    ArchPatternSummary :=
  let indicators := ROLE_TECHNOLOGY_INDICATORS role
  let afterPRs : List String :=
    activity.prs.foldl
      (fun acc pr =>
        let text := prText pr.title pr.body
        let filePaths := String.intercalate " " (pr.filesChanged.map fun f => f.filePath.toLower)
        let acc := indicators.architecturePatterns.foldl
          (fun acc pattern =>
            if strContains text pattern || strContains filePaths pattern then
              addIfNew acc pattern
            else acc)
          acc
        let acc := if pr.isAPIChange then addIfNew acc "api-design" else acc
        let acc := if pr.isInfrastructureChange then addIfNew acc "infrastructure" else acc
        if pr.isDatabaseChange then addIfNew acc "data-layer" else acc)
      []
  let detectedPatterns : List String :=
    activity.repositories.foldl
      (fun acc repo =>
        indicators.architecturePatterns.foldl
          (fun acc pattern =>
            if strContains (repoText repo.description repo.topics) pattern then
              addIfNew acc pattern
            else acc)
          acc)
      afterPRs
  { score := qmin ((detectedPatterns.length : ℚ) * 20) 100
    patterns := detectedPatterns }

/-- Translation of `calculateFileTypeAlignment` (scores/compatibility.ts). -/
def calculateFileTypeAlignment (activity : EngineerActivity) (role : RoleType) : ℚ :=
  let indicators := ROLE_TECHNOLOGY_INDICATORS role
  let allFiles := activity.prs.flatMap fun pr => pr.filesChanged
  let totalFiles : ℕ := allFiles.length
  let relevantFiles : ℕ :=
    (allFiles.filter fun file =>
      indicators.fileExtensions.contains file.fileExtension.toLower).length
  if 0 < totalFiles then (relevantFiles : ℚ) / (totalFiles : ℚ) * 100 else 0

/-- Translation of `calculateActivityTypeMatch` (scores/compatibility.ts). -/
def calculateActivityTypeMatch (activity : EngineerActivity) (role : RoleType) : ℚ :=
  let indicators := ROLE_TECHNOLOGY_INDICATORS role
  let totalActivities : ℕ := activity.prs.length + activity.issues.length
  let relevantFromPRs : ℕ :=
    (activity.prs.filter fun pr =>
      (match role with
       | .backend => pr.isAPIChange || pr.isDatabaseChange
       | .frontend => pr.isUIChange
       | .devops => pr.isInfrastructureChange || pr.isConfigChange
       | _ => false) ||
      indicators.keywords.any fun kw => strContains (prText pr.title pr.body) kw).length
  let relevantFromIssues : ℕ :=
    activity.issues.foldl
      (fun acc issue =>
        let acc := acc +
          (if indicators.keywords.any fun kw => strContains (prText issue.title issue.body) kw
           then 1 else 0)
        acc + (match role with
               | .devops => if issue.isInfrastructure then 1 else 0
               | .security => if issue.isSecurity then 1 else 0
               | _ => 0))
      0
  let relevantActivities : ℕ := relevantFromPRs + relevantFromIssues
  if 0 < totalActivities then (relevantActivities : ℚ) / (totalActivities : ℚ) * 100 else 0

/-- Translation of `calculateRepositoryTypeMatch` (scores/compatibility.ts). -/
def calculateRepositoryTypeMatch (activity : EngineerActivity) (role : RoleType) : ℚ :=
  let indicators := ROLE_TECHNOLOGY_INDICATORS role
  let relevantRepos : ℕ :=
    (activity.repositories.filter fun repo =>
      !repo.isFork &&
      (indicators.languages.contains repo.primaryLanguage.toLower ||
       indicators.keywords.any fun kw =>
         strContains (repoText repo.description repo.topics) kw)).length
  let totalRepos : ℕ := (activity.repositories.filter fun r => !r.isFork).length
  if 0 < totalRepos then (relevantRepos : ℚ) / (totalRepos : ℚ) * 100 else 0

/-- The `file.substring(file.lastIndexOf('.'))` expression of
`calculateReviewDomainExpertise`: the suffix from the last dot, or the whole
string when there is no dot (JS `substring(-1)` is `substring(0)`). -/
def extSuffix (s : String) : String :=
  let afterLastDot : Option (List Char) :=
    s.toList.foldl
      (fun acc c => if c = '.' then some [] else acc.map fun l => l ++ [c])
      none
  match afterLastDot with
  | none => s
  | some cs => "." ++ String.mk cs

/-- Translation of `calculateReviewDomainExpertise` (scores/compatibility.ts).
The file-extension loop and the language loop each have their own `break`,
so a review matching both counts twice, as in the source. -/
def calculateReviewDomainExpertise (activity : EngineerActivity) (role : RoleType) : ℚ :=
  let indicators := ROLE_TECHNOLOGY_INDICATORS role
  let relevantReviews : ℕ :=
    activity.codeReviews.foldl
      (fun acc review =>
        let acc := acc +
          (if review.reviewedFiles.any fun file =>
              indicators.fileExtensions.contains (extSuffix file).toLower
           then 1 else 0)
        acc + (if review.languages.any fun lang => indicators.languages.contains lang.toLower
               then 1 else 0))
      0
  let totalReviews : ℕ := activity.codeReviews.length
  if 0 < totalReviews then (relevantReviews : ℚ) / (totalReviews : ℚ) * 100 else 0

structure NegativeSignals where
  technologyMismatch : Option ℚ
  domainContradiction : Option ℚ
  insufficientDepth : ℚ
  architectureMismatch : ℚ
  technologyOverweight : ℚ
deriving DecidableEq, Repr

/-- Number of changed files across all PRs whose lowercased path contains a
negative indicator for the role (the `mismatchCount` loop of
`calculateNegativeSignals`). -/
def negIndicatorFileHits (activity : EngineerActivity) (role : RoleType) : ℕ :=
  let indicators := ROLE_TECHNOLOGY_INDICATORS role
  ((activity.prs.flatMap fun pr => pr.filesChanged).filter fun file =>
    indicators.negativeIndicators.any fun ni => strContains file.filePath.toLower ni).length

/-- Translation of `calculateNegativeSignals` (scores/compatibility.ts).
`mismatchCount / activity.prs.length` is the one unguarded division of the
engine: with an empty PR list it is `0 / 0 = NaN`, modelled as `none`. -/
def calculateNegativeSignals (activity : EngineerActivity) (role : RoleType) :
    NegativeSignals :=
  let technologyMismatch : Option ℚ :=
    if activity.prs.length = 0 then none
    else some (qmin ((negIndicatorFileHits activity role : ℚ) /
      (activity.prs.length : ℚ) * 100) 100)
  let contradictionScore : Option ℚ := technologyMismatch
  let depthAnalysis := calculateDomainContributionDepth activity role
  let insufficientDepth : ℚ := if depthAnalysis.totalPRs < 5 then 100 else 0
  let archAnalysis := calculateArchitecturePatternMatch activity role
  let architectureMismatch : ℚ := if archAnalysis.patterns.length = 0 then 50 else 0
  let techAnalysis := calculateTechnologyStackMatch activity role
  let technologyOverweight : ℚ :=
    if techAnalysis.matched.length < techAnalysis.mismatched.length then 70 else 0
  { technologyMismatch := technologyMismatch
    domainContradiction := contradictionScore
    insufficientDepth := insufficientDepth
    architectureMismatch := architectureMismatch
    technologyOverweight := technologyOverweight }

structure CompatibilitySignals where
  technologyStackMatch : ℚ
  domainContributionDepth : ℚ
  architecturePatternMatch : ℚ
  fileTypeAlignment : ℚ
  activityTypeMatch : ℚ
  repositoryTypeMatch : ℚ
  reviewDomainExpertise : ℚ
deriving DecidableEq, Repr

structure CompatibilityWeights where
  technologyStackMatch : ℚ
  domainContributionDepth : ℚ
  architecturePatternMatch : ℚ
  fileTypeAlignment : ℚ
  activityTypeMatch : ℚ
  repositoryTypeMatch : ℚ
  reviewDomainExpertise : ℚ
deriving DecidableEq, Repr

/-- Translation of `getRoleWeights` (scores/compatibility.ts). -/
def getRoleWeights (role : RoleType) : CompatibilityWeights :=
  match role with
  | .backend =>
    { technologyStackMatch := 0.25, domainContributionDepth := 0.3
      architecturePatternMatch := 0.2, fileTypeAlignment := 0.15
      activityTypeMatch := 0.1, repositoryTypeMatch := 0.1, reviewDomainExpertise := 0.05 }
  | .frontend =>
    { technologyStackMatch := 0.25, domainContributionDepth := 0.25
      architecturePatternMatch := 0.15, fileTypeAlignment := 0.25
      activityTypeMatch := 0.15, repositoryTypeMatch := 0.1, reviewDomainExpertise := 0.05 }
  | .devops =>
    { technologyStackMatch := 0.2, domainContributionDepth := 0.2
      architecturePatternMatch := 0.25, fileTypeAlignment := 0.15
      activityTypeMatch := 0.25, repositoryTypeMatch := 0.1, reviewDomainExpertise := 0.05 }
  | _ =>
    { technologyStackMatch := 0.2, domainContributionDepth := 0.25
      architecturePatternMatch := 0.15, fileTypeAlignment := 0.15
      activityTypeMatch := 0.1, repositoryTypeMatch := 0.1, reviewDomainExpertise := 0.05 }

inductive CompatLevel where
  | high | medium | low | poor
deriving DecidableEq, Repr

structure EvidenceItem where
  type : String
  description : String
  score : ℚ
deriving DecidableEq, Repr

structure CompatExplanation where
  role : String
  strengths : List String
  weaknesses : List String
  evidence : List EvidenceItem
deriving DecidableEq, Repr

structure TechStackBreakdown where
  matchedTechnologies : List String
  mismatchedTechnologies : List String
  score : ℚ
deriving DecidableEq, Repr

structure ContributionDepthBreakdown where
  relevantPRs : ℕ
  totalPRs : ℕ
  score : ℚ
deriving DecidableEq, Repr

structure ArchPatternsBreakdown where
  detectedPatterns : List String
  score : ℚ
deriving DecidableEq, Repr

structure CompatibilityBreakdown where
  technologyStack : TechStackBreakdown
  contributionDepth : ContributionDepthBreakdown
  architecturePatterns : ArchPatternsBreakdown
deriving DecidableEq, Repr

structure CompatibilityScoreResult where
  totalScore : Option ℚ
  compatibilityLevel : CompatLevel
  signals : CompatibilitySignals
  negativeSignals : NegativeSignals
  explanation : CompatExplanation
  breakdown : CompatibilityBreakdown
deriving DecidableEq, Repr

/-- Translation of `calculateCompatibilityScore` (scores/compatibility.ts).
The total is an `Option ℚ` because the `technologyMismatch` penalty can be
`NaN` (empty PR list), which propagates through the subtraction and the
`Math.max(0, Math.min(100, ...))` clamp, and makes every `>=` comparison of
the level derivation false (hence level `poor`). -/
def calculateCompatibilityScore (activity : EngineerActivity) (query : RoleQuery) :
    CompatibilityScoreResult :=
  let role := query.role
  let weights := getRoleWeights role
  let techStack := calculateTechnologyStackMatch activity role
  let contributionDepth := calculateDomainContributionDepth activity role
  let architecture := calculateArchitecturePatternMatch activity role
  let fileType := calculateFileTypeAlignment activity role
  let activityType := calculateActivityTypeMatch activity role
  let repositoryType := calculateRepositoryTypeMatch activity role
  let reviewExpertise := calculateReviewDomainExpertise activity role
  let signals : CompatibilitySignals :=
    { technologyStackMatch := techStack.score
      domainContributionDepth := contributionDepth.score
      architecturePatternMatch := architecture.score
      fileTypeAlignment := fileType
      activityTypeMatch := activityType
      repositoryTypeMatch := repositoryType
      reviewDomainExpertise := reviewExpertise }
  let negativeSignals := calculateNegativeSignals activity role
  let positiveTotal : ℚ :=
    signals.technologyStackMatch * weights.technologyStackMatch +
    signals.domainContributionDepth * weights.domainContributionDepth +
    signals.architecturePatternMatch * weights.architecturePatternMatch +
    signals.fileTypeAlignment * weights.fileTypeAlignment +
    signals.activityTypeMatch * weights.activityTypeMatch +
    signals.repositoryTypeMatch * weights.repositoryTypeMatch +
    signals.reviewDomainExpertise * weights.reviewDomainExpertise
  let penalty : Option ℚ :=
    oAdd (oMul negativeSignals.technologyMismatch 0.15)
      (oAdd (oMul negativeSignals.domainContradiction 0.1)
        (some (negativeSignals.insufficientDepth * 0.2 +
               negativeSignals.architectureMismatch * 0.1 +
               negativeSignals.technologyOverweight * 0.15)))
  let totalScore : Option ℚ := oClamp100 (oSub (some positiveTotal) penalty)
  let compatibilityLevel : CompatLevel :=
    if oGe totalScore 75 then .high
    else if oGe totalScore 50 then .medium
    else if oGe totalScore 25 then .low
    else .poor
  let strengths : List String :=
    (if 70 < techStack.score then
      ["Strong technology stack match with " ++ toString techStack.matched.length ++
        " relevant technologies"] else []) ++
    (if 70 < contributionDepth.score then
      ["Deep domain contributions: " ++ toString contributionDepth.relevantPRs ++ "/" ++
        toString contributionDepth.totalPRs ++ " relevant PRs"] else []) ++
    (if 0 < architecture.patterns.length then
      ["Recognized architecture patterns: " ++
        String.intercalate ", " (architecture.patterns.take 3)] else [])
  let weaknesses : List String :=
    (if techStack.score < 30 ∧ ¬ 70 < techStack.score then
      ["Limited technology stack alignment"] else []) ++
    (if oGt negativeSignals.technologyMismatch 50 then
      ["Significant contributions in mismatched technologies"] else []) ++
    (if 0 < negativeSignals.insufficientDepth then
      ["Insufficient contribution depth in role domain"] else [])
  let evidence : List EvidenceItem :=
    (if 70 < techStack.score then
      [{ type := "Technology Stack"
         description := "Matched technologies: " ++
           String.intercalate ", " (techStack.matched.take 5)
         score := techStack.score }] else []) ++
    (if 70 < contributionDepth.score then
      [{ type := "Contribution Depth"
         description := toString contributionDepth.relevantPRs ++ " out of " ++
           toString contributionDepth.totalPRs ++ " PRs are role-relevant"
         score := contributionDepth.score }] else []) ++
    (if 0 < architecture.patterns.length then
      [{ type := "Architecture Patterns"
         description := "Detected patterns: " ++ String.intercalate ", " architecture.patterns
         score := architecture.score }] else [])
  { totalScore := totalScore
    compatibilityLevel := compatibilityLevel
    signals := signals
    negativeSignals := negativeSignals
    explanation :=
      { role := roleName role
        strengths := strengths
        weaknesses := weaknesses
        evidence := evidence }
    breakdown :=
      { technologyStack :=
          { matchedTechnologies := techStack.matched
            mismatchedTechnologies := techStack.mismatched
            score := techStack.score }
        contributionDepth :=
          { relevantPRs := contributionDepth.relevantPRs
            totalPRs := contributionDepth.totalPRs
            score := contributionDepth.score }
        architecturePatterns :=
          { detectedPatterns := architecture.patterns
            score := architecture.score } } }

/-! ## Recruiter match score (`scores/recruiterMatch.ts`) -/

structure RecruiterMatchWeights where
  trust : ℚ
  compatibility : ℚ
  impact : ℚ
deriving DecidableEq, Repr

structure RecruiterMatchThresholds where
  trust : ℚ
  compatibility : ℚ
  impact : ℚ
deriving DecidableEq, Repr

structure RecruiterMatchBoostFactors where
  highTrustBoost : ℚ
  highCompatibilityBoost : ℚ
  highImpactBoost : ℚ
deriving DecidableEq, Repr

structure RecruiterMatchWeightsPartial where
  trust : Option ℚ := none
  compatibility : Option ℚ := none
  impact : Option ℚ := none
deriving DecidableEq, Repr

structure RecruiterMatchThresholdsPartial where
  trust : Option ℚ := none
  compatibility : Option ℚ := none
  impact : Option ℚ := none
deriving DecidableEq, Repr

structure RecruiterMatchBoostFactorsPartial where
  highTrustBoost : Option ℚ := none
  highCompatibilityBoost : Option ℚ := none
  highImpactBoost : Option ℚ := none
deriving DecidableEq, Repr

/-- Partial configuration (the TS `RecruiterMatchScoreConfig`). -/
structure RecruiterMatchScoreConfig where
  weights : Option RecruiterMatchWeightsPartial := none
  minimumThresholds : Option RecruiterMatchThresholdsPartial := none
  boostFactors : Option RecruiterMatchBoostFactorsPartial := none
deriving DecidableEq, Repr

/-- Fully resolved configuration (the TS `Required<RecruiterMatchScoreConfig>`). -/
structure RecruiterMatchScoreConfigFull where
  weights : RecruiterMatchWeights
  minimumThresholds : RecruiterMatchThresholds
  boostFactors : RecruiterMatchBoostFactors
deriving DecidableEq, Repr

/-- The recruiter-match calculator's `DEFAULT_CONFIG`. -/
def recruiterMatchDefaultConfig : RecruiterMatchScoreConfigFull :=
  { weights := { trust := 0.4, compatibility := 0.4, impact := 0.2 }
    minimumThresholds := { trust := 50, compatibility := 30, impact := 20 }
    boostFactors :=
      { highTrustBoost := 1.1, highCompatibilityBoost := 1.15, highImpactBoost := 1.05 } }

/-- The config merge at the top of `calculateRecruiterMatchScore`. -/
def resolveRecruiterMatchConfig (config : Option RecruiterMatchScoreConfig) :
    RecruiterMatchScoreConfigFull :=
  match config with
  | none => recruiterMatchDefaultConfig
  | some c =>
    { weights :=
        match c.weights with
        | none => recruiterMatchDefaultConfig.weights
        | some w =>
          { trust := w.trust.getD recruiterMatchDefaultConfig.weights.trust
            compatibility := w.compatibility.getD recruiterMatchDefaultConfig.weights.compatibility
            impact := w.impact.getD recruiterMatchDefaultConfig.weights.impact }
      minimumThresholds :=
        match c.minimumThresholds with
        | none => recruiterMatchDefaultConfig.minimumThresholds
        | some t =>
          { trust := t.trust.getD recruiterMatchDefaultConfig.minimumThresholds.trust
            compatibility :=
              t.compatibility.getD recruiterMatchDefaultConfig.minimumThresholds.compatibility
            impact := t.impact.getD recruiterMatchDefaultConfig.minimumThresholds.impact }
      boostFactors :=
        match c.boostFactors with
        | none => recruiterMatchDefaultConfig.boostFactors
        | some b =>
          { highTrustBoost :=
              b.highTrustBoost.getD recruiterMatchDefaultConfig.boostFactors.highTrustBoost
            highCompatibilityBoost :=
              b.highCompatibilityBoost.getD
                recruiterMatchDefaultConfig.boostFactors.highCompatibilityBoost
            highImpactBoost :=
              b.highImpactBoost.getD recruiterMatchDefaultConfig.boostFactors.highImpactBoost } }

structure Boosts where
  trust : ℚ
  compatibility : ℚ
  impact : ℚ
deriving DecidableEq, Repr

/-- Return record of `calculateWeightedScore`. `total` and
`compatibilityComponent` are `Option ℚ` because the compatibility axis can
carry a `NaN` total (see `calculateCompatibilityScore`), which propagates. -/
structure WeightedScore where
  total : Option ℚ
  trustComponent : ℚ
  compatibilityComponent : Option ℚ
  impactComponent : ℚ
  boosts : Boosts
deriving DecidableEq, Repr

/-- Translation of `calculateWeightedScore` (scores/recruiterMatch.ts):
threshold gating (fail fast), then boosts, then the capped boosted total;
the returned components are the un-boosted weighted contributions. -/
def calculateWeightedScore (trustScore : ℚ) (compatibilityScore : Option ℚ)
    (impactScore : ℚ) (config : RecruiterMatchScoreConfigFull) : WeightedScore :=
  if trustScore < config.minimumThresholds.trust then
    { total := some 0, trustComponent := 0, compatibilityComponent := some 0
      impactComponent := 0, boosts := { trust := 1, compatibility := 1, impact := 1 } }
  else if oLt compatibilityScore config.minimumThresholds.compatibility then
    { total := some 0, trustComponent := 0, compatibilityComponent := some 0
      impactComponent := 0, boosts := { trust := 1, compatibility := 1, impact := 1 } }
  else if impactScore < config.minimumThresholds.impact then
    { total := some 0, trustComponent := 0, compatibilityComponent := some 0
      impactComponent := 0, boosts := { trust := 1, compatibility := 1, impact := 1 } }
  else
    let trustBoost : ℚ := if 80 < trustScore then config.boostFactors.highTrustBoost else 1
    let compatibilityBoost : ℚ :=
      if oGt compatibilityScore 85 then config.boostFactors.highCompatibilityBoost else 1
    let impactBoost : ℚ := if 90 < impactScore then config.boostFactors.highImpactBoost else 1
    let trustComponent : ℚ := trustScore * config.weights.trust * trustBoost
    let compatibilityComponent : Option ℚ :=
      oMul (oMul compatibilityScore config.weights.compatibility) compatibilityBoost
    let impactComponent : ℚ := impactScore * config.weights.impact * impactBoost
    let total : Option ℚ :=
      (oAdd (oAdd (some trustComponent) compatibilityComponent)
        (some impactComponent)).map fun s => qmin s 100
    { total := total
      trustComponent := trustScore * config.weights.trust
      compatibilityComponent := oMul compatibilityScore config.weights.compatibility
      impactComponent := impactScore * config.weights.impact
      boosts :=
        { trust := trustBoost, compatibility := compatibilityBoost, impact := impactBoost } }

inductive MatchLevel where
  | excellent | strong | good | fair | poor
deriving DecidableEq, Repr

inductive Recommendation where
  | stronglyRecommend | recommend | consider | notRecommended
deriving DecidableEq, Repr

structure RecruiterView where
  matchScore : Option ℚ
  matchLevel : MatchLevel
  recommendation : Recommendation
  trustScore : ℚ
  fitScore : Option ℚ
  impactScore : ℚ
  strengths : List String
  concerns : List String
  isAuthentic : Bool
  isGoodFit : Bool
  hasImpact : Bool
  redFlags : List String
  summary : String
deriving DecidableEq, Repr

/-- The `parts.join(', ')` of `generateSummary` / `generateWhyThisMatch`
(models `Array.prototype.join` with separator `", "`). -/
def joinComma : List String → String
  | [] => ""
  | [s] => s
  | s :: rest => s ++ ", " ++ joinComma rest

/-- Translation of `generateSummary` (scores/recruiterMatch.ts). With a `NaN`
match score every `>=` comparison is false, so the lowest branch
("Fair match") is taken. -/
def generateSummary (trustResult : TrustScoreResult)
    (compatibilityResult : CompatibilityScoreResult) (impactResult : ImpactScoreResult)
    (matchScore : Option ℚ) : String :=
  let parts : List String :=
    [if oGe matchScore 85 then "Excellent match"
     else if oGe matchScore 70 then "Strong match"
     else if oGe matchScore 50 then "Good match"
     else "Fair match"] ++
    ["with " ++ compatibilityResult.explanation.role ++ " role"] ++
    (if trustResult.isAuthentic then ["and authentic profile"] else []) ++
    (if compatibilityResult.compatibilityLevel = .high then
      ["showing strong role alignment"] else []) ++
    (if 80 < impactResult.totalScore then ["with high-impact contributions"] else [])
  joinComma parts ++ "."

/-- Translation of `generateRecruiterView` (scores/recruiterMatch.ts). The
`components` parameter is accepted and ignored, as in the source. -/
def generateRecruiterView (trustResult : TrustScoreResult)
    (compatibilityResult : CompatibilityScoreResult) (impactResult : ImpactScoreResult)
    (matchScore : Option ℚ) (_components : ℚ × Option ℚ × ℚ) : RecruiterView :=
  let matchLevel : MatchLevel :=
    if oGe matchScore 85 then .excellent
    else if oGe matchScore 70 then .strong
    else if oGe matchScore 50 then .good
    else if oGe matchScore 30 then .fair
    else .poor
  let recommendation : Recommendation :=
    if oGe matchScore 85 then .stronglyRecommend
    else if oGe matchScore 70 then .recommend
    else if oGe matchScore 50 then .consider
    else if oGe matchScore 30 then .consider
    else .notRecommended
  let strengths : List String :=
    (if 75 < trustResult.totalScore then
      ["Highly authentic profile with verified contributions"] else []) ++
    (if oGt compatibilityResult.totalScore 75 then
      ["Strong " ++ compatibilityResult.explanation.role ++ " role fit"] else []) ++
    (if 80 < impactResult.totalScore then
      ["High-impact contributions with proven track record"] else []) ++
    (if trustResult.isAuthentic ∧ compatibilityResult.compatibilityLevel = .high then
      ["Authentic engineer with excellent role alignment"] else [])
  let concerns : List String :=
    (if trustResult.totalScore < 60 then ["Trust score below ideal threshold"] else []) ++
    (if oLt compatibilityResult.totalScore 50 then
      ["Limited role-specific experience"] else []) ++
    (if impactResult.totalScore < 50 then ["Lower contribution impact"] else []) ++
    (if 0 < trustResult.redFlags.length then
      [toString trustResult.redFlags.length ++ " trust-related concerns"] else [])
  let redFlags : List String :=
    (if !trustResult.isAuthentic then ["Profile authenticity concerns"] else []) ++
    (if trustResult.spamDetection.forkFarming then
      ["Fork-only contributions detected"] else []) ++
    (if compatibilityResult.compatibilityLevel = .poor then ["Poor role compatibility"] else [])
  { matchScore := matchScore
    matchLevel := matchLevel
    recommendation := recommendation
    trustScore := trustResult.totalScore
    fitScore := compatibilityResult.totalScore
    impactScore := impactResult.totalScore
    strengths := strengths
    concerns := concerns
    isAuthentic := trustResult.isAuthentic
    isGoodFit := !(compatibilityResult.compatibilityLevel = .poor)
    hasImpact := decide (50 < impactResult.totalScore)
    redFlags := redFlags
    summary := generateSummary trustResult compatibilityResult impactResult matchScore }

structure EngineerTrustView where
  total : ℚ
  isAuthentic : Bool
  confidence : ℚ
  accountAuthenticity : ℚ
  contributionAuthenticity : ℚ
  collaborationSignals : ℚ
  antiGamingScore : ℚ
  greenFlags : List String
  redFlags : List String
deriving DecidableEq, Repr

structure EngineerCompatibilityView where
  total : Option ℚ
  compatibilityLevel : CompatLevel
  signals : CompatibilitySignals
  strengths : List String
  weaknesses : List String
deriving DecidableEq, Repr

structure EngineerImpactView where
  total : ℚ
  prImpact : ℚ
  collaboration : ℚ
  longevity : ℚ
  quality : ℚ
  totalMergedPRs : ℕ
  activeRepositories : ℕ
  activitySpanMonths : ℚ
deriving DecidableEq, Repr

structure EngineerView where
  trustScore : EngineerTrustView
  compatibilityScore : EngineerCompatibilityView
  impactScore : EngineerImpactView
  improvementSuggestions : List String
deriving DecidableEq, Repr

/-- Top-level keys of the object literal returned by `generateEngineerView`,
as they appear in its serialized form. -/
def engineerViewSerializedKeys : List String :=
  ["trustScore", "compatibilityScore", "impactScore", "improvementSuggestions"]

/-- Translation of `generateEngineerView` (scores/recruiterMatch.ts). -/
def generateEngineerView (trustResult : TrustScoreResult)
    (compatibilityResult : CompatibilityScoreResult) (impactResult : ImpactScoreResult) :
    EngineerView :=
  let suggestions : List String :=
    (if trustResult.totalScore < 70 then
      (if trustResult.redFlags.contains "Insufficient repository diversity" then
        ["Contribute to more diverse repositories to increase trust score"] else []) ++
      (if trustResult.spamDetection.forkFarming then
        ["Contribute to original repositories, not just forks"] else [])
     else []) ++
    (if oLt compatibilityResult.totalScore 60 then
      ["Increase " ++ compatibilityResult.explanation.role ++ "-specific contributions"] ++
      (if oGt compatibilityResult.negativeSignals.technologyMismatch 50 then
        ["Focus on role-relevant technologies and reduce unrelated contributions"] else [])
     else []) ++
    (if impactResult.totalScore < 60 then
      ["Increase merged PR count and collaboration with maintainers"] ++
      (if impactResult.signals.activeRepositories < 3 then
        ["Contribute to more repositories to demonstrate breadth"] else [])
     else [])
  { trustScore :=
      { total := trustResult.totalScore
        isAuthentic := trustResult.isAuthentic
        confidence := trustResult.confidence
        accountAuthenticity := trustResult.components.accountAuthenticity.score
        contributionAuthenticity := trustResult.components.contributionAuthenticity.score
        collaborationSignals := trustResult.components.collaborationSignals.score
        antiGamingScore := trustResult.components.antiGamingScore.score
        greenFlags := trustResult.greenFlags
        redFlags := trustResult.redFlags }
    compatibilityScore :=
      { total := compatibilityResult.totalScore
        compatibilityLevel := compatibilityResult.compatibilityLevel
        signals := compatibilityResult.signals
        strengths := compatibilityResult.explanation.strengths
        weaknesses := compatibilityResult.explanation.weaknesses }
    impactScore :=
      { total := impactResult.totalScore
        prImpact := impactResult.components.prImpact.score
        collaboration := impactResult.components.collaboration.score
        longevity := impactResult.components.longevity.score
        quality := impactResult.components.quality.score
        totalMergedPRs := impactResult.signals.totalMergedPRs
        activeRepositories := impactResult.signals.activeRepositories
        activitySpanMonths := impactResult.signals.activitySpanMonths }
    improvementSuggestions := suggestions }

structure CalculationDetails where
  weights : RecruiterMatchWeights
  thresholds : RecruiterMatchThresholds
  boosts : Boosts
deriving DecidableEq, Repr

structure RecruiterMatchScoreResult where
  totalMatchScore : Option ℚ
  trustComponent : ℚ
  compatibilityComponent : Option ℚ
  impactComponent : ℚ
  recruiterView : RecruiterView
  engineerView : EngineerView
  calculationDetails : CalculationDetails
deriving DecidableEq, Repr

/-- Translation of `calculateRecruiterMatchScore` (scores/recruiterMatch.ts). -/
def calculateRecruiterMatchScore (trustResult : TrustScoreResult)
    (compatibilityResult : CompatibilityScoreResult) (impactResult : ImpactScoreResult)
    (config : Option RecruiterMatchScoreConfig := none) : RecruiterMatchScoreResult :=
  let fullConfig := resolveRecruiterMatchConfig config
  let scoreCalculation :=
    calculateWeightedScore trustResult.totalScore compatibilityResult.totalScore
      impactResult.totalScore fullConfig
  let recruiterView :=
    generateRecruiterView trustResult compatibilityResult impactResult scoreCalculation.total
      (scoreCalculation.trustComponent, scoreCalculation.compatibilityComponent,
        scoreCalculation.impactComponent)
  let engineerView := generateEngineerView trustResult compatibilityResult impactResult
  { totalMatchScore := scoreCalculation.total
    trustComponent := scoreCalculation.trustComponent
    compatibilityComponent := scoreCalculation.compatibilityComponent
    impactComponent := scoreCalculation.impactComponent
    recruiterView := recruiterView
    engineerView := engineerView
    calculationDetails :=
      { weights := fullConfig.weights
        thresholds := fullConfig.minimumThresholds
        boosts := scoreCalculation.boosts } }

/-! ## Explanation generator (`utils/explanation-generator.ts`) -/

structure Strength where
  title : String
  description : String
  evidence : List String
deriving DecidableEq, Repr

inductive Severity where
  | low | medium | high
deriving DecidableEq, Repr

structure Concern where
  title : String
  description : String
  severity : Severity
  evidence : List String
deriving DecidableEq, Repr

structure TrustIndicators where
  isAuthentic : Bool
  confidence : ℚ
  keyTrustSignals : List String
deriving DecidableEq, Repr

structure CompatibilityIndicators where
  role : String
  fitLevel : CompatLevel
  keySignals : List String
deriving DecidableEq, Repr

structure ImpactIndicators where
  contributionDepth : String
  collaborationLevel : String
  keyContributions : List String
deriving DecidableEq, Repr

structure MatchExplanation where
  whyThisMatch : String
  strengths : List Strength
  concerns : List Concern
  trustIndicators : TrustIndicators
  compatibilityIndicators : CompatibilityIndicators
  impactIndicators : ImpactIndicators
deriving DecidableEq, Repr

/-- Translation of `getImpactLevel` (explanation-generator.ts). -/
def getImpactLevel (score : ℚ) : String :=
  if 70 ≤ score then "high" else if 40 ≤ score then "medium" else "low"

/-- Translation of `generateWhyThisMatch` (explanation-generator.ts). -/
def generateWhyThisMatch (trustResult : TrustScoreResult)
    (impactResult : ImpactScoreResult) (compatibilityResult : CompatibilityScoreResult) :
    String :=
  let parts : List String :=
    [if trustResult.isAuthentic then "This engineer has an authentic profile"
     else "There are authenticity concerns with this profile"] ++
    [if compatibilityResult.compatibilityLevel = .high then
      "shows strong alignment with " ++ compatibilityResult.explanation.role ++ " engineering"
     else if compatibilityResult.compatibilityLevel = .medium then
      "demonstrates moderate " ++ compatibilityResult.explanation.role ++ " experience"
     else "has limited " ++ compatibilityResult.explanation.role ++ " alignment"] ++
    [if getImpactLevel impactResult.totalScore = "high" then
      "with a proven track record of meaningful contributions"
     else if getImpactLevel impactResult.totalScore = "medium" then
      "with a solid history of contributions"
     else "with emerging contribution patterns"]
  joinComma parts ++ "."

/-- Translation of `buildTrustEvidence` (explanation-generator.ts). -/
def buildTrustEvidence (trustResult : TrustScoreResult) : List String :=
  (if 365 < trustResult.signals.accountAge then
    ["Account age: " ++ toString (jsRound (trustResult.signals.accountAge / 365)) ++ " years"]
   else []) ++
  (if 70 < trustResult.signals.repositoryDiversity then ["High repository diversity"] else []) ++
  (if 80 < trustResult.signals.maintainerTrust then ["High maintainer trust"] else []) ++
  (if 0 < trustResult.greenFlags.length then trustResult.greenFlags.take 2 else [])

/-- Translation of `generateStrengths` (explanation-generator.ts). The
`breakdown.uniqueCollaborators` access in the collaboration strength refers
to a field that does not exist on `CollaborationBreakdown`, so the JS
expression `undefined || 'Multiple'` always yields `'Multiple'`. -/
def generateStrengths (trustResult : TrustScoreResult) (impactResult : ImpactScoreResult)
    (compatibilityResult : CompatibilityScoreResult) : List Strength :=
  (if trustResult.isAuthentic then
    [{ title := "Authentic Profile"
       description := "Profile shows genuine engineering activity with verified contributions."
       evidence := buildTrustEvidence trustResult }] else []) ++
  (if 80 < trustResult.signals.maintainerTrust then
    [{ title := "High Maintainer Trust"
       description := "Most contributions (" ++
         toString (jsRound trustResult.signals.maintainerTrust) ++
         "%) were merged by repository maintainers, indicating quality work."
       evidence :=
         [toString (jsRound trustResult.signals.maintainerTrust) ++
            "% of PRs merged by maintainers",
          toString ((impactResult.signals.totalMergedPRs : ℤ) -
            (impactResult.signals.selfMergedPRs : ℤ)) ++ " maintainer-merged PRs"] }]
   else []) ++
  (if 70 < trustResult.signals.repositoryDiversity then
    [{ title := "Strong Repository Diversity"
       description := "Contributions span " ++
         toString impactResult.signals.activeRepositories ++
         " repositories, showing breadth of experience."
       evidence :=
         [toString impactResult.signals.activeRepositories ++ " active repositories",
          "Contributions across diverse projects"] }] else []) ++
  (if 70 < trustResult.signals.collaborationDepth then
    [{ title := "Active Collaboration"
       description := "Strong collaboration patterns with other engineers and maintainers."
       evidence := ["Multiple collaborators", "Active in team environments"] }] else []) ++
  (if 70 < impactResult.components.prImpact.score then
    [{ title := "High PR Impact"
       description := "Significant contributions with " ++
         toString impactResult.signals.totalMergedPRs ++
         " merged PRs and strong review engagement."
       evidence :=
         [toString impactResult.signals.totalMergedPRs ++ " merged PRs",
          "Average " ++
            toString (jsRound (impactResult.components.prImpact.breakdown.reviewEngagement / 10)) ++
            " review comments per PR",
          toString (jsRound impactResult.components.prImpact.breakdown.repoDiversity) ++
            " repository diversity score"] }] else []) ++
  (if 70 < impactResult.components.longevity.score then
    [{ title := "Long-term Consistency"
       description := "Sustained contributions over " ++
         toString (jsRound impactResult.signals.activitySpanMonths) ++
         " months, demonstrating commitment and reliability."
       evidence :=
         [toString (jsRound impactResult.signals.activitySpanMonths) ++ " months of activity",
          "Consistent contribution patterns",
          jsNumToString impactResult.components.longevity.breakdown.consistency ++
            "% consistency score"] }] else []) ++
  (if 70 < impactResult.components.collaboration.score then
    [{ title := "Strong Collaboration"
       description :=
         "Active participation in collaborative development with cross-repository contributions."
       evidence :=
         ["Contributions to " ++ toString impactResult.signals.activeRepositories ++
            " repositories",
          "Active code review participation",
          "Team-oriented development approach"] }] else []) ++
  (if 70 < compatibilityResult.signals.technologyStackMatch then
    [{ title := "Technology Stack Alignment"
       description := "Strong match with " ++ compatibilityResult.explanation.role ++
         " technologies and tools."
       evidence :=
         [toString compatibilityResult.breakdown.technologyStack.matchedTechnologies.length ++
            " matched technologies",
          "Technologies: " ++ String.intercalate ", "
            (compatibilityResult.breakdown.technologyStack.matchedTechnologies.take 5)] }]
   else []) ++
  (if 70 < compatibilityResult.signals.domainContributionDepth then
    [{ title := "Deep Domain Experience"
       description := "Strong focus on " ++ compatibilityResult.explanation.role ++
         "-specific work with " ++
         toString compatibilityResult.breakdown.contributionDepth.relevantPRs ++
         " relevant PRs."
       evidence :=
         [toString compatibilityResult.breakdown.contributionDepth.relevantPRs ++ " out of " ++
            toString compatibilityResult.breakdown.contributionDepth.totalPRs ++
            " PRs are role-relevant",
          toString (jsRound compatibilityResult.signals.domainContributionDepth) ++
            "% domain contribution depth"] }] else []) ++
  (if 0 < compatibilityResult.breakdown.architecturePatterns.detectedPatterns.length then
    [{ title := "Architecture Pattern Recognition"
       description := "Recognized architecture patterns relevant to " ++
         compatibilityResult.explanation.role ++ " engineering."
       evidence :=
         ["Patterns: " ++ String.intercalate ", "
            (compatibilityResult.breakdown.architecturePatterns.detectedPatterns.take 3),
          toString compatibilityResult.breakdown.architecturePatterns.detectedPatterns.length ++
            " architecture patterns detected"] }] else [])

/-- Translation of `generateConcerns` (explanation-generator.ts). -/
def generateConcerns (trustResult : TrustScoreResult) (impactResult : ImpactScoreResult)
    (compatibilityResult : CompatibilityScoreResult) : List Concern :=
  (if !trustResult.isAuthentic then
    [{ title := "Profile Authenticity Concerns"
       description :=
         "Profile does not meet authenticity thresholds. May indicate spam, farming, or incomplete profile."
       severity := .high
       evidence := trustResult.redFlags }] else []) ++
  (if trustResult.spamDetection.forkFarming then
    [{ title := "Fork-Only Contributions"
       description :=
         "All contributions are to forked repositories. No contributions to original repositories detected."
       severity := .high
       evidence :=
         ["100% fork contribution ratio", "No original repository contributions"] }] else []) ++
  (if 0.8 < trustResult.signals.forkContributionRatio then
    [{ title := "High Fork Contribution Ratio"
       description := "Most contributions (" ++
         toString (jsRound (trustResult.signals.forkContributionRatio * 100)) ++
         "%) are to forked repositories."
       severity := .medium
       evidence :=
         [toString (jsRound (trustResult.signals.forkContributionRatio * 100)) ++
            "% fork contributions",
          "Limited original repository engagement"] }] else []) ++
  (if trustResult.signals.accountAge < 180 then
    [{ title := "New Account"
       description := "Account is relatively new (" ++
         toString (jsRound trustResult.signals.accountAge) ++
         " days old). Limited history available."
       severity := .low
       evidence :=
         [toString (jsRound trustResult.signals.accountAge) ++ " days old account",
          "Limited contribution history"] }] else []) ++
  (if trustResult.signals.repositoryDiversity < 30 then
    [{ title := "Limited Repository Diversity"
       description := "Contributions concentrated in few repositories (" ++
         toString impactResult.signals.activeRepositories ++ " repositories)."
       severity := .medium
       evidence :=
         [toString impactResult.signals.activeRepositories ++ " active repositories",
          "Limited breadth of experience"] }] else []) ++
  (if impactResult.signals.totalMergedPRs < 5 then
    [{ title := "Limited Contribution History"
       description := "Only " ++ toString impactResult.signals.totalMergedPRs ++
         " merged PRs. Limited evidence of impact."
       severity := .medium
       evidence :=
         [toString impactResult.signals.totalMergedPRs ++ " total merged PRs",
          "Insufficient data for comprehensive assessment"] }] else []) ++
  (if impactResult.components.longevity.score < 40 then
    [{ title := "Short Activity Span"
       description := "Limited contribution history (" ++
         toString (jsRound impactResult.signals.activitySpanMonths) ++
         " months). May indicate new or inconsistent contributor."
       severity := .low
       evidence :=
         [toString (jsRound impactResult.signals.activitySpanMonths) ++ " months of activity",
          "Limited long-term consistency"] }] else []) ++
  (if impactResult.components.collaboration.score < 40 then
    [{ title := "Limited Collaboration"
       description :=
         "Few collaborative contributions. May indicate solo work or limited team interaction."
       severity := .low
       evidence :=
         ["Limited cross-repository contributions", "Few collaborative PRs"] }] else []) ++
  (if compatibilityResult.compatibilityLevel = .poor then
    [{ title := "Poor Role Compatibility"
       description := "Limited alignment with " ++ compatibilityResult.explanation.role ++
         " role requirements."
       severity := .high
       evidence := compatibilityResult.explanation.weaknesses }] else []) ++
  (if compatibilityResult.signals.technologyStackMatch < 30 then
    [{ title := "Technology Stack Mismatch"
       description := "Limited experience with " ++ compatibilityResult.explanation.role ++
         " technologies."
       severity := .medium
       evidence :=
         [toString compatibilityResult.breakdown.technologyStack.matchedTechnologies.length ++
            " matched technologies",
          "Mismatched: " ++ String.intercalate ", "
            (compatibilityResult.breakdown.technologyStack.mismatchedTechnologies.take 3)] }]
   else []) ++
  (if compatibilityResult.signals.domainContributionDepth < 30 then
    [{ title := "Limited Domain Experience"
       description := "Only " ++
         toString compatibilityResult.breakdown.contributionDepth.relevantPRs ++ " out of " ++
         toString compatibilityResult.breakdown.contributionDepth.totalPRs ++
         " PRs are role-relevant."
       severity := .medium
       evidence :=
         [toString (jsRound compatibilityResult.signals.domainContributionDepth) ++
            "% domain contribution depth",
          "Limited role-specific contributions"] }] else []) ++
  (if oGt compatibilityResult.negativeSignals.technologyMismatch 50 then
    [{ title := "Significant Technology Mismatch"
       description := "High percentage of contributions in technologies not aligned with role."
       severity := .medium
       evidence :=
         [oRoundStr compatibilityResult.negativeSignals.technologyMismatch ++
            "% technology mismatch",
          "Contributions in unrelated technologies"] }] else [])

/-- Translation of `extractTrustIndicators` (explanation-generator.ts). -/
def extractTrustIndicators (trustResult : TrustScoreResult) : TrustIndicators :=
  let signals : List String :=
    (if trustResult.isAuthentic then ["Authentic profile verified"] else []) ++
    (if 80 < trustResult.signals.maintainerTrust then ["High maintainer trust"] else []) ++
    (if 70 < trustResult.signals.repositoryDiversity then
      ["Strong repository diversity"] else []) ++
    (if 70 < trustResult.signals.collaborationDepth then ["Active collaboration"] else []) ++
    (if 0 < trustResult.greenFlags.length then trustResult.greenFlags.take 3 else [])
  { isAuthentic := trustResult.isAuthentic
    confidence := trustResult.confidence
    keyTrustSignals := signals }

/-- Translation of `extractCompatibilityIndicators` (explanation-generator.ts). -/
def extractCompatibilityIndicators (compatibilityResult : CompatibilityScoreResult) :
    CompatibilityIndicators :=
  let signals : List String :=
    (if 70 < compatibilityResult.signals.technologyStackMatch then
      ["Strong technology alignment"] else []) ++
    (if 70 < compatibilityResult.signals.domainContributionDepth then
      ["Deep domain experience"] else []) ++
    (if 70 < compatibilityResult.signals.architecturePatternMatch then
      ["Recognized architecture patterns"] else []) ++
    (if 0 < compatibilityResult.breakdown.architecturePatterns.detectedPatterns.length then
      [toString compatibilityResult.breakdown.architecturePatterns.detectedPatterns.length ++
        " architecture patterns"] else []) ++
    (if 0 < compatibilityResult.explanation.strengths.length then
      compatibilityResult.explanation.strengths.take 2 else [])
  { role := compatibilityResult.explanation.role
    fitLevel := compatibilityResult.compatibilityLevel
    keySignals := signals }

/-- Translation of `extractImpactIndicators` (explanation-generator.ts). -/
def extractImpactIndicators (impactResult : ImpactScoreResult) : ImpactIndicators :=
  let contributions : List String :=
    [toString impactResult.signals.totalMergedPRs ++ " merged PRs",
     toString impactResult.signals.activeRepositories ++ " active repositories"] ++
    (match impactResult.explainability.topContributingRepos with
     | [] => []
     | topRepo :: _ =>
       ["Top contribution: " ++ topRepo.repo ++ " (" ++ toString topRepo.prCount ++ " PRs)"])
  let contributionDepth : String :=
    if 70 < impactResult.totalScore then "Deep"
    else if 40 < impactResult.totalScore then "Moderate"
    else "Emerging"
  let collaborationLevel : String :=
    if 70 < impactResult.components.collaboration.score then "Strong"
    else if 40 < impactResult.components.collaboration.score then "Moderate"
    else "Limited"
  { contributionDepth := contributionDepth
    collaborationLevel := collaborationLevel
    keyContributions := contributions }

/-- Translation of `generateMatchExplanation` (explanation-generator.ts). -/
def generateMatchExplanation (trustResult : TrustScoreResult)
    (impactResult : ImpactScoreResult) (compatibilityResult : CompatibilityScoreResult) :
    MatchExplanation :=
  { whyThisMatch := generateWhyThisMatch trustResult impactResult compatibilityResult
    strengths := generateStrengths trustResult impactResult compatibilityResult
    concerns := generateConcerns trustResult impactResult compatibilityResult
    trustIndicators := extractTrustIndicators trustResult
    compatibilityIndicators := extractCompatibilityIndicators compatibilityResult
    impactIndicators := extractImpactIndicators impactResult }

/-! ## Concrete sample inputs used by the verification theorems -/

/-- A minimal account with an empty profile, created at the epoch. -/
def sampleAccount : GitHubAccount :=
  { username := "u", createdAt := ⟨0, 1970, 0⟩, publicRepos := 0, followers := 0, following := 0
    bio := none, location := none, company := none, website := none, email := none
    isVerified := false }

/-- An all-zero contribution pattern (no PRs at all). -/
def emptyPattern : ContributionPattern :=
  { totalPRs := 0, mergedPRs := 0, openPRs := 0, closedPRs := 0, selfMergedPRs := 0
    forkPRs := 0, originalRepoPRs := 0, forkOnlyRepos := [], originalRepoContributions := 0
    firstContributionDate := none, lastContributionDate := none, contributionDays := 0
    contributionMonths := 0, averagePRsPerDay := 0, maxPRsInSingleDay := 0
    uniqueRepositories := 0, repositoriesWithMultiplePRs := 0
    repositoriesWithMaintainerInteraction := 0, reviewsGiven := 0, reviewsReceived := 0
    maintainerReviews := 0, issuesOpened := 0, issuesClosed := 0, issuesWithPRs := 0
    commitMessagePatterns := [], commitTimePatterns := [], identicalCommitMessages := 0
    uniqueCollaborators := 0, maintainerInteractions := 0, crossRepositoryCollaborations := 0 }

/-- A pattern whose one PR is a fork PR, with zero original-repo
contributions, but whose `forkOnlyRepos` list is empty. -/
def forkOnlyPattern : ContributionPattern :=
  { emptyPattern with totalPRs := 1, mergedPRs := 1, forkPRs := 1 }

/-- `forkOnlyPattern` with a nonempty `forkOnlyRepos` list. -/
def forkOnlyPatternListed : ContributionPattern :=
  { forkOnlyPattern with forkOnlyRepos := ["fork1"] }

/-- A single backend-flavoured PR: its one changed file is a `.py` file
(more than 50% of its files are role-relevant) and its title contains the
role keyword `api`. -/
def apiPyPR : PRAnalysis :=
  { id := "1", repository := "r", title := "api", body := none, mergedAt := ⟨0, 2024, 0⟩
    filesChanged := [{ filePath := "a.py", fileExtension := ".py", changeType := .modified
                       linesAdded := 1, linesDeleted := 0, directory := "" }]
    languages := [], directories := [], isInfrastructureChange := false, isAPIChange := false
    isUIChange := false, isDatabaseChange := false, isConfigChange := false
    isTestChange := false, isDocumentationChange := false }

/-- Engineer activity holding only `apiPyPR`. -/
def apiPyActivity : EngineerActivity :=
  { prs := [apiPyPR], issues := [], repositories := [], codeReviews := [] }

/-- Engineer activity with no data at all (in particular, an empty PR list). -/
def emptyEngineerActivity : EngineerActivity :=
  { prs := [], issues := [], repositories := [], codeReviews := [] }

/-- A merged PR whose author merged it themselves. -/
def selfMergedPR : MergedPR :=
  { id := "1", repository := "repo1", mergedAt := ⟨0, 1970, 0⟩, mergedBy := "alice"
    author := "alice", reviewCommentsReceived := 5, reviewRounds := 2, filesChanged := 10
    directoriesTouched := 3, isMaintainerMerge := false, isFork := false, timeToMerge := 24 }

/-- GitHub activity whose only PR is `selfMergedPR` and which has no reviews,
issues or repositories. -/
def selfMergedOnlyActivity : GitHubActivity :=
  { mergedPRs := [selfMergedPR], reviewsGiven := [], reviewsReceived := [], issues := []
    repositories := [], activitySpan := { firstPRDate := ⟨0, 1970, 0⟩, lastPRDate := ⟨0, 1970, 0⟩ } }

/-- A trust result fixture carrying a given total score and benign signals. -/
def sampleTrustResult (total : ℚ) : TrustScoreResult :=
  { totalScore := total, isAuthentic := true, confidence := 100
    components :=
      { accountAuthenticity :=
          { score := total
            breakdown := { accountAge := 400, accountMaturity := 50, profileCompleteness := 60 } }
        contributionAuthenticity :=
          { score := total
            breakdown := { contributionSpan := 200, repositoryDiversity := 50
                           maintainerTrust := 50, temporalConsistency := 50 } }
        collaborationSignals :=
          { score := total
            breakdown := { uniqueCollaborators := 5, maintainerInteractions := 5
                           crossRepoCollaborations := 5, reviewReciprocity := 50 } }
        antiGamingScore :=
          { score := total
            breakdown := { spamDetection := 100, forkFarmingPenalty := 0
                           patternAnomalies := 100, behavioralRedFlags := 100 } } }
    signals :=
      { accountAge := 400, accountMaturity := 50, contributionSpan := 200
        repositoryDiversity := 50, maintainerTrust := 50, collaborationDepth := 50
        forkContributionRatio := 0, originalRepoContributionRatio := 1 }
    spamDetection :=
      { excessiveDailyPRs := false, excessiveHourlyActivity := false
        identicalCommitMessages := false, automatedPatterns := false
        suspiciousTimePatterns := false, trivialPRs := 0, whitespaceOnlyPRs := 0
        singleCharacterPRs := 0, forkFarming := false, selfMergeFarming := false
        repositoryFarming := false }
    redFlags := [], greenFlags := [] }

/-- A compatibility result fixture carrying a given total score. -/
def sampleCompatResult (total : Option ℚ) : CompatibilityScoreResult :=
  { totalScore := total, compatibilityLevel := .medium
    signals :=
      { technologyStackMatch := 50, domainContributionDepth := 50
        architecturePatternMatch := 50, fileTypeAlignment := 50, activityTypeMatch := 50
        repositoryTypeMatch := 50, reviewDomainExpertise := 50 }
    negativeSignals :=
      { technologyMismatch := some 0, domainContradiction := some 0, insufficientDepth := 0
        architectureMismatch := 0, technologyOverweight := 0 }
    explanation := { role := "backend", strengths := [], weaknesses := [], evidence := [] }
    breakdown :=
      { technologyStack := { matchedTechnologies := [], mismatchedTechnologies := [], score := 50 }
        contributionDepth := { relevantPRs := 5, totalPRs := 10, score := 50 }
        architecturePatterns := { detectedPatterns := [], score := 0 } } }

/-- An impact result fixture carrying a given total score. -/
def sampleImpactResult (total : ℚ) : ImpactScoreResult :=
  { totalScore := total
    components :=
      { prImpact :=
          { score := total
            breakdown := { mergedPRCount := 50, reviewEngagement := 50, acceptanceRate := 100
                           repoDiversity := 50, maintainerTrust := 50 } }
        collaboration :=
          { score := total
            breakdown := { crossRepoContributions := 50, reviewReciprocity := 50
                           issueEngagement := 50, teamParticipation := 50 } }
        longevity :=
          { score := total
            breakdown := { activitySpan := 12, consistency := 50, temporalDistribution := 50 } }
        quality :=
          { score := total
            breakdown := { reviewDepth := 50, maintainerTrust := 50
                           contributionComplexity := 50, antiSpamScore := 100 } } }
    signals :=
      { totalMergedPRs := 10, selfMergedPRs := 0, spamPRs := 0, activeRepositories := 5
        activitySpanMonths := 12 }
    explainability := { topContributingRepos := [], recentActivity := [], penalties := [] } }

/-! ## Theorems -/

/-- C1: the spec's range invariant fails in the code: for a single PR whose
files are more than 50% role-relevant (a lone `.py` file, backend role) and
whose title contains a role keyword (`api`), `calculateDomainContributionDepth`
counts the PR twice, and `calculateCompatibilityScore` reports
`signals.domainContributionDepth = 200`, outside [0, 100]. -/
theorem C1_domainContributionDepth_out_of_range :
    (calculateCompatibilityScore apiPyActivity
      { role := .backend }).signals.domainContributionDepth = 200 ∧
    ¬ (calculateCompatibilityScore apiPyActivity
      { role := .backend }).signals.domainContributionDepth ≤ 100 := by
  constructor
  · with_unfolding_all decide
  · with_unfolding_all decide

/-- C3 counterexample: `calculateTrustScore` is not independent of the
wall-clock time: with the account and pattern fixed, evaluating at day 100
and at day 400 yields different total scores (the account-age component
reads the current time). -/
theorem C3_trust_score_depends_on_clock :
    (calculateTrustScore (100 * 86400000) (fun _ => 0) sampleAccount
      emptyPattern none).totalScore ≠
    (calculateTrustScore (400 * 86400000) (fun _ => 0) sampleAccount
      emptyPattern none).totalScore := by
  with_unfolding_all decide

/-- C3 (amended): each calculator is a deterministic pure function of its
arguments together with the ambient clock and math library: at a fixed
`now` (and fixed `log10` / `pow`), calling any of the five entry points
twice with identical arguments yields identical results. (Only
`calculateTrustScore` and `calculateImpactScore` read the clock at all;
the other three take no time parameter.) -/
theorem C3_determinism_at_fixed_clock :
    (∀ (now : ℚ) (log10 : ℚ → ℚ) (a : GitHubAccount) (p : ContributionPattern)
        (cfg : Option TrustScoreConfig),
      calculateTrustScore now log10 a p cfg = calculateTrustScore now log10 a p cfg) ∧
    (∀ (now : ℚ) (log10 : ℚ → ℚ) (powQ : ℚ → ℚ → ℚ) (act : GitHubActivity)
        (cfg : Option ImpactScoreConfig),
      calculateImpactScore now log10 powQ act cfg =
        calculateImpactScore now log10 powQ act cfg) ∧
    (∀ (act : EngineerActivity) (q : RoleQuery),
      calculateCompatibilityScore act q = calculateCompatibilityScore act q) ∧
    (∀ (tr : TrustScoreResult) (cr : CompatibilityScoreResult) (ir : ImpactScoreResult)
        (cfg : Option RecruiterMatchScoreConfig),
      calculateRecruiterMatchScore tr cr ir cfg = calculateRecruiterMatchScore tr cr ir cfg) ∧
    (∀ (tr : TrustScoreResult) (ir : ImpactScoreResult) (cr : CompatibilityScoreResult),
      generateMatchExplanation tr ir cr = generateMatchExplanation tr ir cr) :=
  ⟨fun _ _ _ _ _ => rfl, fun _ _ _ _ _ => rfl, fun _ _ => rfl, fun _ _ _ _ => rfl,
   fun _ _ _ => rfl⟩

/-- C6: on an `EngineerActivity` with an empty PR list, the unguarded
division `mismatchCount / activity.prs.length` in `calculateNegativeSignals`
is `0 / 0 = NaN` (modelled as `none`), so
`negativeSignals.technologyMismatch` is NaN rather than the 0 the spec
requires, and the NaN propagates into `totalScore`. The companion conjunct
shows the trust calculator's spam detection at `totalPRs = 0` stays
well-defined (`NaN > 0.5` is false). -/
theorem C6_technology_mismatch_NaN_on_empty_prs :
    (calculateCompatibilityScore emptyEngineerActivity
      { role := .backend }).negativeSignals.technologyMismatch = none ∧
    (calculateCompatibilityScore emptyEngineerActivity { role := .backend }).totalScore = none ∧
    (detectSpamPatterns emptyPattern trustDefaultConfig).selfMergeFarming = false := by
  refine ⟨?_, ?_, ?_⟩
  · with_unfolding_all decide
  · with_unfolding_all decide
  · with_unfolding_all decide

/-- C7 counterexample: a pattern in which 100% of PRs are fork PRs
(`forkPRs = totalPRs = 1`) and `originalRepoContributions = 0`, but whose
`forkOnlyRepos` list is empty, is not flagged: `detectSpamPatterns` tests
`forkOnlyRepos.length > 0`, not the fork-PR ratio, so
`spamDetection.forkFarming` is `false` and the fork-farming red flag is
absent. -/
theorem C7_fork_ratio_alone_not_flagged :
    forkOnlyPattern.forkPRs = forkOnlyPattern.totalPRs ∧
    0 < forkOnlyPattern.totalPRs ∧
    forkOnlyPattern.originalRepoContributions = 0 ∧
    (calculateTrustScore 0 (fun _ => 0) sampleAccount
      forkOnlyPattern none).spamDetection.forkFarming = false ∧
    "Fork-only contributions detected" ∉
      (calculateTrustScore 0 (fun _ => 0) sampleAccount forkOnlyPattern none).redFlags := by
  refine ⟨rfl, by with_unfolding_all decide, rfl, by with_unfolding_all decide, ?_⟩
  with_unfolding_all decide

/-- C9 counterexample: with no detected architecture patterns the
`architectureMismatch` negative signal is 50, not the 100 the spec claims. -/
theorem C9_architecture_mismatch_not_100 :
    (calculateArchitecturePatternMatch emptyEngineerActivity .backend).patterns = [] ∧
    (calculateCompatibilityScore emptyEngineerActivity
      { role := .backend }).negativeSignals.architectureMismatch = 50 ∧
    (calculateCompatibilityScore emptyEngineerActivity
      { role := .backend }).negativeSignals.architectureMismatch ≠ 100 := by
  refine ⟨rfl, by with_unfolding_all decide, by with_unfolding_all decide⟩


/-- C2: threshold gating short-circuits. -/
theorem C2_gating_short_circuits (tr : TrustScoreResult) (cr : CompatibilityScoreResult)
    (ir : ImpactScoreResult)
    (h : tr.totalScore < 50 ∨ oLt cr.totalScore 30 = true ∨ ir.totalScore < 20) :
    (calculateRecruiterMatchScore tr cr ir none).totalMatchScore = some 0 ∧
    (calculateRecruiterMatchScore tr cr ir none).trustComponent = 0 ∧
    (calculateRecruiterMatchScore tr cr ir none).compatibilityComponent = some 0 ∧
    (calculateRecruiterMatchScore tr cr ir none).impactComponent = 0 ∧
    (calculateRecruiterMatchScore tr cr ir none).calculationDetails.boosts.trust = 1 ∧
    (calculateRecruiterMatchScore tr cr ir none).calculationDetails.boosts.compatibility = 1 ∧
    (calculateRecruiterMatchScore tr cr ir none).calculationDetails.boosts.impact = 1 := by
  have hcfg : resolveRecruiterMatchConfig none = recruiterMatchDefaultConfig := rfl
  simp only [calculateRecruiterMatchScore, hcfg, calculateWeightedScore,
    recruiterMatchDefaultConfig]
  rcases h with h | h | h
  · rw [if_pos h]; exact ⟨rfl, rfl, rfl, rfl, rfl, rfl, rfl⟩
  · by_cases h1 : tr.totalScore < 50
    · rw [if_pos h1]; exact ⟨rfl, rfl, rfl, rfl, rfl, rfl, rfl⟩
    · rw [if_neg h1, if_pos h]; exact ⟨rfl, rfl, rfl, rfl, rfl, rfl, rfl⟩
  · by_cases h1 : tr.totalScore < 50
    · rw [if_pos h1]; exact ⟨rfl, rfl, rfl, rfl, rfl, rfl, rfl⟩
    · by_cases h2 : oLt cr.totalScore 30 = true
      · rw [if_neg h1, if_pos h2]; exact ⟨rfl, rfl, rfl, rfl, rfl, rfl, rfl⟩
      · rw [if_neg h1, if_neg h2, if_pos h]; exact ⟨rfl, rfl, rfl, rfl, rfl, rfl, rfl⟩


/-- C2 witness: trust 40 (below the default threshold 50), compatibility 75,
impact 70 is hard-gated to a zero match score with unit boosts. -/
theorem C2_gating_witness :
    (calculateRecruiterMatchScore (sampleTrustResult 40) (sampleCompatResult (some 75))
      (sampleImpactResult 70) none).totalMatchScore = some 0 ∧
    (calculateRecruiterMatchScore (sampleTrustResult 40) (sampleCompatResult (some 75))
      (sampleImpactResult 70) none).trustComponent = 0 ∧
    (calculateRecruiterMatchScore (sampleTrustResult 40) (sampleCompatResult (some 75))
      (sampleImpactResult 70) none).compatibilityComponent = some 0 ∧
    (calculateRecruiterMatchScore (sampleTrustResult 40) (sampleCompatResult (some 75))
      (sampleImpactResult 70) none).impactComponent = 0 ∧
    (calculateRecruiterMatchScore (sampleTrustResult 40) (sampleCompatResult (some 75))
      (sampleImpactResult 70) none).calculationDetails.boosts.trust = 1 ∧
    (calculateRecruiterMatchScore (sampleTrustResult 40) (sampleCompatResult (some 75))
      (sampleImpactResult 70) none).calculationDetails.boosts.compatibility = 1 ∧
    (calculateRecruiterMatchScore (sampleTrustResult 40) (sampleCompatResult (some 75))
      (sampleImpactResult 70) none).calculationDetails.boosts.impact = 1 :=
  C2_gating_short_circuits (sampleTrustResult 40) (sampleCompatResult (some 75))
    (sampleImpactResult 70) (Or.inl (by with_unfolding_all decide))

/-- C4: view separation: the serialized engineer view has no `matchScore` or
`recommendation` key, and the recruiter view's red flags are always drawn
from the three whitelisted category strings, hence never more than 3. -/
theorem C4_view_separation (tr : TrustScoreResult) (cr : CompatibilityScoreResult)
    (ir : ImpactScoreResult) (cfg : Option RecruiterMatchScoreConfig) :
    "matchScore" ∉ engineerViewSerializedKeys ∧
    "recommendation" ∉ engineerViewSerializedKeys ∧
    (∀ s ∈ (calculateRecruiterMatchScore tr cr ir cfg).recruiterView.redFlags,
      s = "Profile authenticity concerns" ∨ s = "Fork-only contributions detected" ∨
      s = "Poor role compatibility") ∧
    (calculateRecruiterMatchScore tr cr ir cfg).recruiterView.redFlags.length ≤ 3 := by
  refine ⟨by decide, by decide, ?_, ?_⟩
  · intro s hs
    simp only [calculateRecruiterMatchScore, generateRecruiterView] at hs
    rcases List.mem_append.mp hs with h | h
    · rcases List.mem_append.mp h with h | h
      · left
        by_cases hb : !tr.isAuthentic
        · simp [hb] at h
          simp [h]
        · simp [hb] at h
      · right; left
        by_cases hb : tr.spamDetection.forkFarming
        · simp [hb] at h
          simp [h]
        · simp [hb] at h
    · right; right
      by_cases hb : cr.compatibilityLevel = .poor
      · simp [hb] at h
        simp [h]
      · simp [hb] at h
  · simp only [calculateRecruiterMatchScore, generateRecruiterView]
    by_cases h1 : !tr.isAuthentic <;> by_cases h2 : tr.spamDetection.forkFarming <;>
      by_cases h3 : cr.compatibilityLevel = .poor <;>
      simp [h1, h2, h3]


/-- C5: self-merge exclusion. -/
theorem C5_self_merge_exclusion (now : ℚ) (log10 : ℚ → ℚ) (powQ : ℚ → ℚ → ℚ)
    (act : GitHubActivity) (cfg : Option ImpactScoreConfig)
    (h : ∀ pr ∈ act.mergedPRs, pr.author = pr.mergedBy) :
    (calculateImpactScore now log10 powQ act cfg).totalScore = 0 ∧
    (calculateImpactScore now log10 powQ act cfg).components.prImpact.score = 0 ∧
    (calculateImpactScore now log10 powQ act cfg).components.collaboration.score = 0 ∧
    (calculateImpactScore now log10 powQ act cfg).components.longevity.score = 0 ∧
    (calculateImpactScore now log10 powQ act cfg).components.quality.score = 0 ∧
    (calculateImpactScore now log10 powQ act cfg).signals.selfMergedPRs =
      act.mergedPRs.length := by
  have hvalid : (filterSelfMergedPRs act.mergedPRs).1 = [] := by
    simp only [filterSelfMergedPRs]
    rw [List.filter_eq_nil_iff]
    intro pr hpr
    simp [h pr hpr]
  have hself : (filterSelfMergedPRs act.mergedPRs).2 = act.mergedPRs := by
    simp only [filterSelfMergedPRs]
    rw [List.filter_eq_self]
    intro pr hpr
    simp [h pr hpr]
  have hsp : filterSpamPRs ([] : List MergedPR) (resolveImpactConfig cfg) = ([], []) := rfl
  simp only [calculateImpactScore, hvalid, hself, hsp]
  simp [calculatePRImpactScore, calculateCollaborationScore, calculateLongevityScore,
    calculateQualityScore]
  norm_num [clamp100, qmin, qmax]

/-- C5 witness: an activity whose only PR is self-merged scores 0 overall,
0 on every component, and counts 1 in `signals.selfMergedPRs`. -/
theorem C5_self_merge_exclusion_witness :
    (calculateImpactScore 0 (fun _ => 0) (fun _ _ => 0)
      selfMergedOnlyActivity none).totalScore = 0 ∧
    (calculateImpactScore 0 (fun _ => 0) (fun _ _ => 0)
      selfMergedOnlyActivity none).components.prImpact.score = 0 ∧
    (calculateImpactScore 0 (fun _ => 0) (fun _ _ => 0)
      selfMergedOnlyActivity none).components.collaboration.score = 0 ∧
    (calculateImpactScore 0 (fun _ => 0) (fun _ _ => 0)
      selfMergedOnlyActivity none).components.longevity.score = 0 ∧
    (calculateImpactScore 0 (fun _ => 0) (fun _ _ => 0)
      selfMergedOnlyActivity none).components.quality.score = 0 ∧
    (calculateImpactScore 0 (fun _ => 0) (fun _ _ => 0)
      selfMergedOnlyActivity none).signals.selfMergedPRs =
      selfMergedOnlyActivity.mergedPRs.length :=
  C5_self_merge_exclusion 0 (fun _ => 0) (fun _ _ => 0) selfMergedOnlyActivity none
    (by decide)

/-- C7 (amended): fork-farming detection. -/
theorem C7_fork_farming_detection (now : ℚ) (log10 : ℚ → ℚ) (account : GitHubAccount)
    (pattern : ContributionPattern) (cfg : Option TrustScoreConfig)
    (_h1 : pattern.forkPRs = pattern.totalPRs) (_h2 : 0 < pattern.totalPRs)
    (h3 : pattern.originalRepoContributions = 0) (h4 : pattern.forkOnlyRepos ≠ []) :
    (calculateTrustScore now log10 account pattern cfg).spamDetection.forkFarming = true ∧
    (calculateTrustScore now log10 account pattern cfg).isAuthentic = false ∧
    "Fork-only contributions detected" ∈
      (calculateTrustScore now log10 account pattern cfg).redFlags := by
  have hff : (detectSpamPatterns pattern (resolveTrustConfig cfg)).forkFarming = true := by
    simp only [detectSpamPatterns]
    simp [List.length_pos, h3, h4]
  refine ⟨?_, ?_, ?_⟩
  · simpa only [calculateTrustScore] using hff
  · simp only [calculateTrustScore, hff]
    simp
  · simp only [calculateTrustScore, hff]
    simp

/-- C7 witness: a pattern with one fork PR out of one total PR, zero
original-repo contributions and a nonempty `forkOnlyRepos` list is flagged
as fork farming, judged inauthentic, and carries the fork-only red flag. -/
theorem C7_fork_farming_witness :
    (calculateTrustScore 0 (fun _ => 0) sampleAccount
      forkOnlyPatternListed none).spamDetection.forkFarming = true ∧
    (calculateTrustScore 0 (fun _ => 0) sampleAccount
      forkOnlyPatternListed none).isAuthentic = false ∧
    "Fork-only contributions detected" ∈
      (calculateTrustScore 0 (fun _ => 0) sampleAccount forkOnlyPatternListed none).redFlags :=
  C7_fork_farming_detection 0 (fun _ => 0) sampleAccount forkOnlyPatternListed none rfl
    (by with_unfolding_all decide) rfl (by decide)

/-- C8: when no gate fires, reported components are the un-boosted weighted
contributions, while the total is the boost-multiplied weighted sum capped
at 100. -/
theorem C8_components_unboosted_total_boosted (tr : TrustScoreResult)
    (cr : CompatibilityScoreResult) (ir : ImpactScoreResult)
    (h1 : ¬ tr.totalScore < 50) (h2 : oLt cr.totalScore 30 = false)
    (h3 : ¬ ir.totalScore < 20) :
    (calculateRecruiterMatchScore tr cr ir none).trustComponent = tr.totalScore * 0.4 ∧
    (calculateRecruiterMatchScore tr cr ir none).compatibilityComponent =
      oMul cr.totalScore 0.4 ∧
    (calculateRecruiterMatchScore tr cr ir none).impactComponent = ir.totalScore * 0.2 ∧
    (calculateRecruiterMatchScore tr cr ir none).calculationDetails.boosts.trust =
      (if 80 < tr.totalScore then 1.1 else 1) ∧
    (calculateRecruiterMatchScore tr cr ir none).calculationDetails.boosts.compatibility =
      (if oGt cr.totalScore 85 then 1.15 else 1) ∧
    (calculateRecruiterMatchScore tr cr ir none).calculationDetails.boosts.impact =
      (if 90 < ir.totalScore then 1.05 else 1) ∧
    (calculateRecruiterMatchScore tr cr ir none).totalMatchScore =
      (oAdd (oAdd (some (tr.totalScore * 0.4 * (if 80 < tr.totalScore then 1.1 else 1)))
          (oMul (oMul cr.totalScore 0.4) (if oGt cr.totalScore 85 then 1.15 else 1)))
        (some (ir.totalScore * 0.2 * (if 90 < ir.totalScore then 1.05 else 1)))).map
        (fun s => qmin s 100) := by
  have hcfg : resolveRecruiterMatchConfig none = recruiterMatchDefaultConfig := rfl
  simp only [calculateRecruiterMatchScore, hcfg, calculateWeightedScore,
    recruiterMatchDefaultConfig]
  rw [if_neg h1, if_neg (by simp [h2]), if_neg h3]
  exact ⟨rfl, rfl, rfl, rfl, rfl, rfl, rfl⟩

/-- C8 witness: trust 85, compatibility 90, impact 95 pass every gate; the
reported components stay un-boosted while all three boosts apply to the
capped total. -/
theorem C8_components_witness :
    (calculateRecruiterMatchScore (sampleTrustResult 85) (sampleCompatResult (some 90))
      (sampleImpactResult 95) none).trustComponent = (85 : ℚ) * 0.4 ∧
    (calculateRecruiterMatchScore (sampleTrustResult 85) (sampleCompatResult (some 90))
      (sampleImpactResult 95) none).compatibilityComponent = oMul (some 90) 0.4 ∧
    (calculateRecruiterMatchScore (sampleTrustResult 85) (sampleCompatResult (some 90))
      (sampleImpactResult 95) none).impactComponent = (95 : ℚ) * 0.2 ∧
    (calculateRecruiterMatchScore (sampleTrustResult 85) (sampleCompatResult (some 90))
      (sampleImpactResult 95) none).calculationDetails.boosts.trust =
      (if (80 : ℚ) < 85 then 1.1 else 1) ∧
    (calculateRecruiterMatchScore (sampleTrustResult 85) (sampleCompatResult (some 90))
      (sampleImpactResult 95) none).calculationDetails.boosts.compatibility =
      (if oGt (some 90) 85 then 1.15 else 1) ∧
    (calculateRecruiterMatchScore (sampleTrustResult 85) (sampleCompatResult (some 90))
      (sampleImpactResult 95) none).calculationDetails.boosts.impact =
      (if (90 : ℚ) < 95 then 1.05 else 1) ∧
    (calculateRecruiterMatchScore (sampleTrustResult 85) (sampleCompatResult (some 90))
      (sampleImpactResult 95) none).totalMatchScore =
      (oAdd (oAdd (some ((85 : ℚ) * 0.4 * (if (80 : ℚ) < 85 then 1.1 else 1)))
          (oMul (oMul (some 90) 0.4) (if oGt (some (90 : ℚ)) 85 then 1.15 else 1)))
        (some ((95 : ℚ) * 0.2 * (if (90 : ℚ) < 95 then 1.05 else 1)))).map
        (fun s => qmin s 100) :=
  C8_components_unboosted_total_boosted (sampleTrustResult 85) (sampleCompatResult (some 90))
    (sampleImpactResult 95) (by with_unfolding_all decide) (by with_unfolding_all decide)
    (by with_unfolding_all decide)

/-- C9 (amended): the architecture-mismatch negative signal is binary 50/0 —
50 exactly when no architecture pattern is detected for the requested role,
0 otherwise — and it enters the total with penalty weight 0.1 (shown on the
full total formula, for activities with at least one PR so that the
technology-mismatch ratio is finite). -/
theorem C9_architecture_mismatch_binary (a : EngineerActivity) (q : RoleQuery)
    (h : a.prs ≠ []) :
    (calculateCompatibilityScore a q).negativeSignals.architectureMismatch =
      (if (calculateArchitecturePatternMatch a q.role).patterns = [] then 50 else 0) ∧
    (calculateCompatibilityScore a q).totalScore =
      some (clamp100 (
        (calculateTechnologyStackMatch a q.role).score *
            (getRoleWeights q.role).technologyStackMatch +
        (calculateDomainContributionDepth a q.role).score *
            (getRoleWeights q.role).domainContributionDepth +
        (calculateArchitecturePatternMatch a q.role).score *
            (getRoleWeights q.role).architecturePatternMatch +
        calculateFileTypeAlignment a q.role * (getRoleWeights q.role).fileTypeAlignment +
        calculateActivityTypeMatch a q.role * (getRoleWeights q.role).activityTypeMatch +
        calculateRepositoryTypeMatch a q.role * (getRoleWeights q.role).repositoryTypeMatch +
        calculateReviewDomainExpertise a q.role *
            (getRoleWeights q.role).reviewDomainExpertise -
        (qmin ((negIndicatorFileHits a q.role : ℚ) / (a.prs.length : ℚ) * 100) 100 * 0.15 +
         qmin ((negIndicatorFileHits a q.role : ℚ) / (a.prs.length : ℚ) * 100) 100 * 0.1 +
         (calculateNegativeSignals a q.role).insufficientDepth * 0.2 +
         (if (calculateArchitecturePatternMatch a q.role).patterns = [] then 50 else 0) * 0.1 +
         (calculateNegativeSignals a q.role).technologyOverweight * 0.15))) := by
  have hlen : ¬ a.prs.length = 0 := by
    simpa [List.length_eq_zero] using h
  have hns : (calculateNegativeSignals a q.role).architectureMismatch =
      (if (calculateArchitecturePatternMatch a q.role).patterns = [] then 50 else 0) := by
    simp only [calculateNegativeSignals, List.length_eq_zero]
  have htm : (calculateNegativeSignals a q.role).technologyMismatch =
      some (qmin ((negIndicatorFileHits a q.role : ℚ) / (a.prs.length : ℚ) * 100) 100) := by
    simp only [calculateNegativeSignals]
    rw [if_neg hlen]
  have hdc : (calculateNegativeSignals a q.role).domainContradiction =
      some (qmin ((negIndicatorFileHits a q.role : ℚ) / (a.prs.length : ℚ) * 100) 100) := by
    simp only [calculateNegativeSignals]
    rw [if_neg hlen]
  constructor
  · simpa only [calculateCompatibilityScore] using hns
  · simp only [calculateCompatibilityScore, htm, hdc, hns, oMul, oAdd, oSub, oClamp100,
      Option.map]
    congr 1
    ring_nf

/-- C9 witness: the amended statement instantiated at the one-PR backend
sample activity. -/
theorem C9_architecture_mismatch_binary_witness :
    (calculateCompatibilityScore apiPyActivity
      { role := .backend }).negativeSignals.architectureMismatch =
      (if (calculateArchitecturePatternMatch apiPyActivity .backend).patterns = []
       then 50 else 0) ∧
    (calculateCompatibilityScore apiPyActivity { role := .backend }).totalScore =
      some (clamp100 (
        (calculateTechnologyStackMatch apiPyActivity .backend).score *
            (getRoleWeights .backend).technologyStackMatch +
        (calculateDomainContributionDepth apiPyActivity .backend).score *
            (getRoleWeights .backend).domainContributionDepth +
        (calculateArchitecturePatternMatch apiPyActivity .backend).score *
            (getRoleWeights .backend).architecturePatternMatch +
        calculateFileTypeAlignment apiPyActivity .backend *
            (getRoleWeights .backend).fileTypeAlignment +
        calculateActivityTypeMatch apiPyActivity .backend *
            (getRoleWeights .backend).activityTypeMatch +
        calculateRepositoryTypeMatch apiPyActivity .backend *
            (getRoleWeights .backend).repositoryTypeMatch +
        calculateReviewDomainExpertise apiPyActivity .backend *
            (getRoleWeights .backend).reviewDomainExpertise -
        (qmin ((negIndicatorFileHits apiPyActivity .backend : ℚ) /
            (apiPyActivity.prs.length : ℚ) * 100) 100 * 0.15 +
         qmin ((negIndicatorFileHits apiPyActivity .backend : ℚ) /
            (apiPyActivity.prs.length : ℚ) * 100) 100 * 0.1 +
         (calculateNegativeSignals apiPyActivity .backend).insufficientDepth * 0.2 +
         (if (calculateArchitecturePatternMatch apiPyActivity .backend).patterns = []
          then 50 else 0) * 0.1 +
         (calculateNegativeSignals apiPyActivity .backend).technologyOverweight * 0.15))) :=
  C9_architecture_mismatch_binary apiPyActivity { role := .backend } (by decide)

/-- C10 helper: any recruiter view generated for a match score below 30 is
labelled poor / not-recommended while its summary still opens with
"Fair match". -/
theorem recruiterView_below_30 (tr : TrustScoreResult) (cr : CompatibilityScoreResult)
    (ir : ImpactScoreResult) (ms : Option ℚ) (comps : ℚ × Option ℚ × ℚ)
    (h : oLt ms 30 = true) :
    (generateRecruiterView tr cr ir ms comps).matchLevel = .poor ∧
    (generateRecruiterView tr cr ir ms comps).recommendation = .notRecommended ∧
    ∃ rest, (generateRecruiterView tr cr ir ms comps).summary = "Fair match" ++ rest := by
  obtain ⟨q, rfl, hq⟩ : ∃ q, ms = some q ∧ q < 30 := by
    cases ms with
    | none => simp [oLt] at h
    | some q => exact ⟨q, rfl, by simpa [oLt] using h⟩
  have h85 : oGe (some q) 85 = false := by simp [oGe]; linarith
  have h70 : oGe (some q) 70 = false := by simp [oGe]; linarith
  have h50 : oGe (some q) 50 = false := by simp [oGe]; linarith
  have h30 : oGe (some q) 30 = false := by simp [oGe]; linarith
  refine ⟨?_, ?_, ?_⟩
  · simp [generateRecruiterView, h85, h70, h50, h30]
  · simp [generateRecruiterView, h85, h70, h50, h30]
  · simp only [generateRecruiterView, generateSummary, h85, h70, h50, h30,
      Bool.false_eq_true, if_false]
    refine ⟨", " ++ joinComma
      (["with " ++ cr.explanation.role ++ " role"] ++
       (if tr.isAuthentic = true then ["and authentic profile"] else []) ++
       (if cr.compatibilityLevel = .high then ["showing strong role alignment"] else []) ++
       (if 80 < ir.totalScore then ["with high-impact contributions"] else [])) ++ ".", ?_⟩
    simp [joinComma, String.append_assoc, List.append_assoc]
    rw [show ("Fair match, " : String) = "Fair match" ++ ", " from rfl, String.append_assoc]

/-- C10: whenever the computed total match score is below 30 — including
hard-gated candidates — the recruiter view says poor / not-recommended, yet
its summary begins with "Fair match" (the summary generator's lowest branch
covers everything below 50). -/
theorem C10_poor_match_summarised_as_fair (tr : TrustScoreResult)
    (cr : CompatibilityScoreResult) (ir : ImpactScoreResult)
    (h : oLt (calculateRecruiterMatchScore tr cr ir none).totalMatchScore 30 = true) :
    (calculateRecruiterMatchScore tr cr ir none).recruiterView.matchLevel = .poor ∧
    (calculateRecruiterMatchScore tr cr ir none).recruiterView.recommendation =
      .notRecommended ∧
    ∃ rest, (calculateRecruiterMatchScore tr cr ir none).recruiterView.summary =
      "Fair match" ++ rest :=
  recruiterView_below_30 tr cr ir
    (calculateWeightedScore tr.totalScore cr.totalScore ir.totalScore
      (resolveRecruiterMatchConfig none)).total
    ((calculateWeightedScore tr.totalScore cr.totalScore ir.totalScore
        (resolveRecruiterMatchConfig none)).trustComponent,
      (calculateWeightedScore tr.totalScore cr.totalScore ir.totalScore
        (resolveRecruiterMatchConfig none)).compatibilityComponent,
      (calculateWeightedScore tr.totalScore cr.totalScore ir.totalScore
        (resolveRecruiterMatchConfig none)).impactComponent) h

/-- C10 witness: a hard-gated candidate (trust 40) has total match score 0,
level poor, recommendation not-recommended, and a summary beginning with
"Fair match". -/
theorem C10_poor_match_witness :
    (calculateRecruiterMatchScore (sampleTrustResult 40) (sampleCompatResult (some 75))
      (sampleImpactResult 70) none).recruiterView.matchLevel = .poor ∧
    (calculateRecruiterMatchScore (sampleTrustResult 40) (sampleCompatResult (some 75))
      (sampleImpactResult 70) none).recruiterView.recommendation = .notRecommended ∧
    ∃ rest, (calculateRecruiterMatchScore (sampleTrustResult 40) (sampleCompatResult (some 75))
      (sampleImpactResult 70) none).recruiterView.summary = "Fair match" ++ rest :=
  C10_poor_match_summarised_as_fair (sampleTrustResult 40) (sampleCompatResult (some 75))
    (sampleImpactResult 70) (by with_unfolding_all decide)

end Wecraft
